import Mathlib

/-!
Shallow embedding of the Uncle Credit P2P lending protocol
(UserRegistry.sol, Reputation.sol, P2PLending.sol) and verification of the
frozen claims about its natural-language specification.

Modelling conventions:
* 20-byte addresses, 32-byte ids and uint256 amounts are modelled as `Nat`
  (the zero address / zero id is `0`).  Solidity 0.8 checked arithmetic
  reverts on underflow; every subtraction in the source that could underflow
  is guarded here by an explicit error branch.  Additions are modelled with
  unbounded `Nat`: a Solidity overflow revert would only remove behaviours,
  so every invariant proved here also holds for the checked-arithmetic code.
* Solidity mappings are total functions returning the zero value of the
  struct (`zeroProfile`, `zeroVouch`, `zeroAgreement`, ...), exactly as a
  Solidity mapping does.
* Reverts are `Except.error msg` carrying the source require-message; a
  revert leaves no successor state, which models Solidity's state rollback.
* ERC20 token movements are recorded as `TokenTransfer` values returned
  alongside the new state; token balances used in `require` checks are read
  from a read-only oracle `balances : Nat → Nat → Nat` (token, holder).
* Event emission and the event-reason strings of `recordLoanPaymentOutcome`
  are not modelled: no claim under verification mentions them.
-/

namespace UncleCredit

/-- A recorded ERC20 movement: `amount` of `token` from `src` to `dst`. -/
structure TokenTransfer where
  token : Nat
  src : Nat
  dst : Nat
  amount : Nat
deriving DecidableEq, Repr

/-- Pointwise update of a one-key Solidity mapping. -/
def upd {α : Type} (f : Nat → α) (k : Nat) (v : α) : Nat → α :=
  fun x => if x = k then v else f x

/-- Pointwise update of a two-key Solidity mapping. -/
def upd2 {α : Type} (f : Nat → Nat → α) (k1 k2 : Nat) (v : α) : Nat → Nat → α :=
  fun x y => if x = k1 ∧ y = k2 then v else f x y

/-! ## UserRegistry.sol -/

/-- `UserRegistry.UserProfile`.  The name is kept as its byte sequence so the
byte-length checks of the source are literal. -/
structure UserProfile where
  isRegistered : Bool
  name : List Nat
  registrationTime : Nat
deriving DecidableEq, Repr

/-- Zero value of `UserProfile` (Solidity mapping default). -/
def zeroUserProfile : UserProfile := ⟨false, [], 0⟩

/-- Storage of the `UserRegistry` contract. -/
structure RegistryState where
  userProfiles : Nat → UserProfile
  registeredUsers : List Nat
  totalUsers : Nat

/-- Deployed `UserRegistry` storage (constructor does nothing). -/
def RegistryState.init : RegistryState :=
  ⟨fun _ => zeroUserProfile, [], 0⟩

/-- `UserRegistry.registerUser`. -/
def registerUser (s : RegistryState) (sender : Nat) (name : List Nat) (now : Nat) :
    Except String RegistryState :=
  if (s.userProfiles sender).isRegistered then
    .error "UserRegistry: Address already registered"
  else if name.length = 0 then
    .error "UserRegistry: Name cannot be empty"
  else if name.length > 50 then
    .error "UserRegistry: Name too long"
  else
    .ok { s with
      userProfiles := upd s.userProfiles sender ⟨true, name, now⟩
      registeredUsers := s.registeredUsers ++ [sender]
      totalUsers := s.totalUsers + 1 }

/-- `UserRegistry.updateProfile`. -/
def updateProfile (s : RegistryState) (sender : Nat) (newName : List Nat) :
    Except String RegistryState :=
  if ¬(s.userProfiles sender).isRegistered then
    .error "UserRegistry: User not registered"
  else if newName.length = 0 then
    .error "UserRegistry: Name cannot be empty"
  else if newName.length > 50 then
    .error "UserRegistry: Name too long"
  else
    .ok { s with
      userProfiles := upd s.userProfiles sender
        { s.userProfiles sender with name := newName } }

/-- One mutating operation of the `UserRegistry` contract. -/
inductive RegistryStep : RegistryState → RegistryState → Prop where
  | register (s s' : RegistryState) (sender : Nat) (name : List Nat) (now : Nat)
      (h : registerUser s sender name now = .ok s') : RegistryStep s s'
  | update (s s' : RegistryState) (sender : Nat) (newName : List Nat)
      (h : updateProfile s sender newName = .ok s') : RegistryStep s s'

/-! ## Shared enums (P2PLending.sol / Reputation.sol) -/

/-- `P2PLending.PaymentModificationType` (constructor order = Solidity enum order,
so the Solidity zero value is `None`). -/
inductive PaymentModificationType where
  | None
  | DueDateExtension
  | PartialPaymentAgreement
deriving DecidableEq, Repr

/-- `Reputation.PaymentOutcomeType` (constructor order = Solidity enum order). -/
inductive PaymentOutcomeType where
  | None
  | OnTimeOriginal
  | LateGraceOriginal
  | OnTimeExtended
  | LateExtended
  | PartialAgreementMetAndRepaid
  | Defaulted
deriving DecidableEq, Repr

/-! ## Reputation.sol -/

/-- `Reputation.ReputationProfile`. -/
structure ReputationProfile where
  userAddress : Nat
  loansTaken : Nat
  loansGiven : Nat
  loansRepaidOnTime : Nat
  loansRepaidLateGrace : Nat
  loansDefaulted : Nat
  totalValueBorrowed : Nat
  totalValueLent : Nat
  currentReputationScore : Int
  vouchingStakeAmount : Nat
  timesVouchedForOthers : Nat
  timesDefaultedAsVoucher : Nat
  modificationsApprovedByLender : Nat
  modificationsRejectedByLender : Nat
deriving DecidableEq, Repr

/-- Zero value of `ReputationProfile` (Solidity mapping default). -/
def zeroReputationProfile : ReputationProfile :=
  ⟨0, 0, 0, 0, 0, 0, 0, 0, 0, 0, 0, 0, 0, 0⟩

/-- `Reputation.Vouch`. -/
structure Vouch where
  voucher : Nat
  borrower : Nat
  tokenAddress : Nat
  stakedAmount : Nat
  isActive : Bool
deriving DecidableEq, Repr

/-- Zero value of `Vouch` (Solidity mapping default). -/
def zeroVouch : Vouch := ⟨0, 0, 0, 0, false⟩

/-- Reputation point constants of Reputation.sol (borrower side). -/
def REPUTATION_POINTS_REPAID_ON_TIME_ORIGINAL : Int := 10
def REPUTATION_POINTS_REPAID_LATE_GRACE : Int := 3
def REPUTATION_POINTS_REPAID_ON_TIME_AFTER_EXTENSION : Int := 7
def REPUTATION_POINTS_REPAID_LATE_AFTER_EXTENSION : Int := 2
def REPUTATION_POINTS_REPAID_WITH_PARTIAL_AGREEMENT_MET : Int := 8
def REPUTATION_POINTS_DEFAULTED : Int := -50

/-- Reputation point constants of Reputation.sol (lender side). -/
def REPUTATION_POINTS_LENT_SUCCESSFULLY_ON_TIME_ORIGINAL : Int := 5
def REPUTATION_POINTS_LENT_SUCCESSFULLY_AFTER_MODIFICATION : Int := 3
def REPUTATION_POINTS_LENDER_APPROVED_EXTENSION : Int := 2
def REPUTATION_POINTS_LENDER_APPROVED_PARTIAL_AGREEMENT : Int := 1
def REPUTATION_POINTS_LENDER_REJECTED_MODIFICATION : Int := 0

/-- Reputation point constant of Reputation.sol (voucher side). -/
def REPUTATION_POINTS_VOUCH_DEFAULTED_VOUCHER : Int := -20

/-- Storage of the `Reputation` contract.  `selfAddr` is `address(this)`,
used as the source of outgoing token transfers. -/
structure ReputationState where
  userReputations : Nat → ReputationProfile
  activeVouches : Nat → Nat → Vouch
  userVouchesGiven : Nat → List Vouch
  userVouchesReceived : Nat → List Vouch
  p2pLendingContractAddress : Nat
  selfAddr : Nat

/-- Deployed `Reputation` storage; `p2pLendingContractAddress` starts at the
zero address until the owner calls the setter. -/
def ReputationState.init (selfAddr : Nat) : ReputationState :=
  ⟨fun _ => zeroReputationProfile, fun _ _ => zeroVouch, fun _ => [], fun _ => [], 0, selfAddr⟩

/-- `Reputation.setP2PLendingContractAddress` (owner-only; ownership is not
modelled, the caller is assumed to be the owner). -/
def setP2PLendingContractAddress (s : ReputationState) (newAddr : Nat) :
    Except String ReputationState :=
  if newAddr = 0 then .error "Invalid P2PLending contract address"
  else .ok { s with p2pLendingContractAddress := newAddr }

/-- `Reputation._initializeReputationProfileIfNotExists`.  `registry` is the
read-only `UserRegistry.isUserRegistered` view. -/
def initializeReputationProfileIfNotExists (registry : Nat → Bool)
    (s : ReputationState) (user : Nat) : ReputationState :=
  if (s.userReputations user).userAddress = 0 ∧ registry user then
    { s with
        userReputations :=
          upd s.userReputations user ({ zeroReputationProfile with userAddress := user }) }
  else s

/-- Apply `f` to the stored profile of `a` (a Solidity storage-reference write). -/
def updProfile (s : ReputationState) (a : Nat) (f : ReputationProfile → ReputationProfile) :
    ReputationState :=
  { s with userReputations := upd s.userReputations a (f (s.userReputations a)) }

/-- `Reputation.recordLoanPaymentOutcome`.  Mutations are threaded in the
statement order of the source; the event-reason bookkeeping of the source
(which only selects emitted strings) is omitted. -/
def recordLoanPaymentOutcome (registry : Nat → Bool) (s : ReputationState)
    (sender : Nat) (_agreementId : Nat) (borrower lender : Nat) (principalAmount : Nat)
    (outcome : PaymentOutcomeType) (modificationTypeUsed : PaymentModificationType)
    (lenderApprovedRequest : Bool) : Except String ReputationState :=
  if sender ≠ s.p2pLendingContractAddress then
    .error "Reputation: Caller is not P2PLending contract"
  else
    let s := initializeReputationProfileIfNotExists registry s borrower
    let s := initializeReputationProfileIfNotExists registry s lender
    let s := updProfile s borrower fun p =>
      { p with loansTaken := p.loansTaken + 1,
               totalValueBorrowed := p.totalValueBorrowed + principalAmount }
    let borrowerRepChange : Int :=
      match outcome with
      | .OnTimeOriginal => REPUTATION_POINTS_REPAID_ON_TIME_ORIGINAL
      | .LateGraceOriginal => REPUTATION_POINTS_REPAID_LATE_GRACE
      | .OnTimeExtended => REPUTATION_POINTS_REPAID_ON_TIME_AFTER_EXTENSION
      | .LateExtended => REPUTATION_POINTS_REPAID_LATE_AFTER_EXTENSION
      | .PartialAgreementMetAndRepaid => REPUTATION_POINTS_REPAID_WITH_PARTIAL_AGREEMENT_MET
      | _ => 0
    let lenderRepChangeBase : Int :=
      match outcome with
      | .OnTimeOriginal => REPUTATION_POINTS_LENT_SUCCESSFULLY_ON_TIME_ORIGINAL
      | .LateGraceOriginal => REPUTATION_POINTS_LENT_SUCCESSFULLY_AFTER_MODIFICATION
      | .OnTimeExtended => REPUTATION_POINTS_LENT_SUCCESSFULLY_AFTER_MODIFICATION
      | .LateExtended => REPUTATION_POINTS_LENT_SUCCESSFULLY_AFTER_MODIFICATION
      | .PartialAgreementMetAndRepaid => REPUTATION_POINTS_LENT_SUCCESSFULLY_AFTER_MODIFICATION
      | _ => 0
    let s := updProfile s borrower fun p =>
      match outcome with
      | .OnTimeOriginal => { p with loansRepaidOnTime := p.loansRepaidOnTime + 1 }
      | .LateGraceOriginal => { p with loansRepaidLateGrace := p.loansRepaidLateGrace + 1 }
      | .OnTimeExtended => { p with loansRepaidOnTime := p.loansRepaidOnTime + 1 }
      | .LateExtended => { p with loansRepaidLateGrace := p.loansRepaidLateGrace + 1 }
      | .PartialAgreementMetAndRepaid => { p with loansRepaidOnTime := p.loansRepaidOnTime + 1 }
      | _ => p
    let s :=
      if borrowerRepChange ≠ 0 then
        updProfile s borrower fun p =>
          { p with currentReputationScore := p.currentReputationScore + borrowerRepChange }
      else s
    let s :=
      if lenderApprovedRequest then
        updProfile s lender fun p =>
          { p with modificationsApprovedByLender := p.modificationsApprovedByLender + 1 }
      else if modificationTypeUsed ≠ PaymentModificationType.None then
        updProfile s lender fun p =>
          { p with modificationsRejectedByLender := p.modificationsRejectedByLender + 1 }
      else s
    let lenderRepChange : Int :=
      lenderRepChangeBase +
        (if lenderApprovedRequest then
          (match modificationTypeUsed with
           | .DueDateExtension => REPUTATION_POINTS_LENDER_APPROVED_EXTENSION
           | .PartialPaymentAgreement => REPUTATION_POINTS_LENDER_APPROVED_PARTIAL_AGREEMENT
           | .None => 0)
         else if modificationTypeUsed ≠ PaymentModificationType.None then
           REPUTATION_POINTS_LENDER_REJECTED_MODIFICATION
         else 0)
    let s := updProfile s lender fun p =>
      { p with loansGiven := p.loansGiven + 1,
               totalValueLent := p.totalValueLent + principalAmount }
    let s :=
      if lenderRepChange ≠ 0 then
        updProfile s lender fun p =>
          { p with currentReputationScore := p.currentReputationScore + lenderRepChange }
      else s
    .ok s

/-- `Reputation.updateReputationOnLoanDefault` (the lender, loan amount and
vouch-list parameters of the source are unused by its body). -/
def updateReputationOnLoanDefault (registry : Nat → Bool) (s : ReputationState)
    (sender : Nat) (borrower : Nat) : Except String ReputationState :=
  if sender ≠ s.p2pLendingContractAddress then
    .error "Reputation: Caller is not P2PLending contract"
  else
    let s := initializeReputationProfileIfNotExists registry s borrower
    .ok (updProfile s borrower fun p =>
      { p with loansTaken := p.loansTaken + 1,
               loansDefaulted := p.loansDefaulted + 1,
               currentReputationScore :=
                 p.currentReputationScore + REPUTATION_POINTS_DEFAULTED })

/-- `Reputation.addVouch`. -/
def addVouch (registry : Nat → Bool) (s : ReputationState) (sender : Nat)
    (borrowerToVouchFor : Nat) (amountToStake : Nat) (tokenAddress : Nat) :
    Except String (ReputationState × List TokenTransfer) :=
  if ¬registry sender then .error "Reputation: User not World ID verified"
  else if borrowerToVouchFor = sender then .error "Cannot vouch for yourself"
  else if ¬registry borrowerToVouchFor then .error "Borrower not World ID verified"
  else if ¬(amountToStake > 0) then .error "Stake amount must be positive"
  else if tokenAddress = 0 then .error "Invalid token address"
  else if (s.activeVouches sender borrowerToVouchFor).isActive then
    .error "Already actively vouching for this borrower"
  else
    let s := initializeReputationProfileIfNotExists registry s sender
    let s := initializeReputationProfileIfNotExists registry s borrowerToVouchFor
    let newVouch : Vouch := ⟨sender, borrowerToVouchFor, tokenAddress, amountToStake, true⟩
    let s := { s with
      activeVouches := upd2 s.activeVouches sender borrowerToVouchFor newVouch,
      userVouchesGiven :=
        upd s.userVouchesGiven sender (s.userVouchesGiven sender ++ [newVouch]),
      userVouchesReceived :=
        upd s.userVouchesReceived borrowerToVouchFor
          (s.userVouchesReceived borrowerToVouchFor ++ [newVouch]) }
    let s := updProfile s sender fun p =>
      { p with vouchingStakeAmount := p.vouchingStakeAmount + amountToStake,
               timesVouchedForOthers := p.timesVouchedForOthers + 1 }
    .ok (s, [⟨tokenAddress, sender, s.selfAddr, amountToStake⟩])

/-- `Reputation.removeVouch`. -/
def removeVouch (registry : Nat → Bool) (s : ReputationState) (sender : Nat)
    (borrowerVouchedFor : Nat) : Except String (ReputationState × List TokenTransfer) :=
  if ¬registry sender then .error "Reputation: User not World ID verified"
  else
    let vouch := s.activeVouches sender borrowerVouchedFor
    if ¬vouch.isActive then .error "No active vouch for this borrower"
    else
      let stakedAmountToReturn := vouch.stakedAmount
      let s := { s with
        activeVouches := upd2 s.activeVouches sender borrowerVouchedFor
          ({ vouch with isActive := false }) }
      if (s.userReputations sender).vouchingStakeAmount < stakedAmountToReturn then
        .error "arithmetic underflow"
      else
        let s := updProfile s sender fun p =>
          { p with vouchingStakeAmount := p.vouchingStakeAmount - stakedAmountToReturn }
        .ok (s, [⟨vouch.tokenAddress, s.selfAddr, sender, stakedAmountToReturn⟩])

/-- `Reputation.slashVouchAndReputation`. -/
def slashVouchAndReputation (registry : Nat → Bool) (s : ReputationState) (sender : Nat)
    (voucher defaultingBorrower : Nat) (amountToSlash : Nat) (lenderToCompensate : Nat) :
    Except String (ReputationState × List TokenTransfer) :=
  if sender ≠ s.p2pLendingContractAddress then
    .error "Reputation: Caller is not P2PLending contract"
  else
    let vouch := s.activeVouches voucher defaultingBorrower
    if ¬vouch.isActive then .error "Vouch not active or does not exist"
    else if ¬(amountToSlash ≤ vouch.stakedAmount) then
      .error "Slash amount exceeds staked amount"
    else if ¬(amountToSlash > 0) then .error "Slash amount must be positive"
    else
      let s := initializeReputationProfileIfNotExists registry s voucher
      let newStake := vouch.stakedAmount - amountToSlash
      let s := { s with
        activeVouches := upd2 s.activeVouches voucher defaultingBorrower
          ({ vouch with stakedAmount := newStake }) }
      if (s.userReputations voucher).vouchingStakeAmount < amountToSlash then
        .error "arithmetic underflow"
      else
        let s := updProfile s voucher fun p =>
          { p with currentReputationScore :=
                     p.currentReputationScore + REPUTATION_POINTS_VOUCH_DEFAULTED_VOUCHER,
                   vouchingStakeAmount := p.vouchingStakeAmount - amountToSlash,
                   timesDefaultedAsVoucher := p.timesDefaultedAsVoucher + 1 }
        let s :=
          if newStake = 0 then
            { s with
                activeVouches :=
                  upd2 s.activeVouches voucher defaultingBorrower
                    ({ vouch with stakedAmount := newStake, isActive := false }) }
          else s
        .ok (s, [⟨vouch.tokenAddress, s.selfAddr, lenderToCompensate, amountToSlash⟩])

/-- `Reputation.getActiveVouchesForBorrower`: walk the received-vouch history
list and return, for each entry whose (voucher, borrower) cell is currently
active, the current cell value. -/
def getActiveVouchesForBorrower (s : ReputationState) (borrower : Nat) : List Vouch :=
  ((s.userVouchesReceived borrower).filter
    (fun v => (s.activeVouches v.voucher v.borrower).isActive)).map
    (fun v => s.activeVouches v.voucher v.borrower)

/-! ## P2PLending.sol

The per-user id-index lists (`userLoanOfferIds`, `userLoanAgreementIdsAsLender`,
...) only feed getters and the keccak id derivation; ids are passed in as
parameters here (the source derives them by hashing), so those lists are not
modelled.  `balances` is the read-only ERC20 `balanceOf` view
(token → holder → amount). -/

/-- `P2PLending.LoanStatus` (constructor order = Solidity enum order, so the
zero value of a mapping slot has status `Active`). -/
inductive LoanStatus where
  | Active
  | Repaid
  | Defaulted
  | Cancelled
  | PendingModificationApproval
  | Active_PartialPaymentAgreed
  | Overdue
deriving DecidableEq, Repr

/-- `P2PLending.LoanOffer`. -/
structure LoanOffer where
  id : Nat
  lender : Nat
  amount : Nat
  token : Nat
  interestRateBPS : Nat
  durationSeconds : Nat
  requiredCollateralAmount : Nat
  collateralToken : Nat
  isActive : Bool
  isFulfilled : Bool
deriving DecidableEq, Repr

/-- `P2PLending.LoanRequest`. -/
structure LoanRequest where
  id : Nat
  borrower : Nat
  amount : Nat
  token : Nat
  proposedInterestRateBPS : Nat
  proposedDurationSeconds : Nat
  offeredCollateralAmount : Nat
  collateralToken : Nat
  isActive : Bool
  isFulfilled : Bool
deriving DecidableEq, Repr

/-- `P2PLending.LoanAgreement`. -/
structure LoanAgreement where
  id : Nat
  originalOfferId : Nat
  originalRequestId : Nat
  lender : Nat
  borrower : Nat
  principalAmount : Nat
  loanToken : Nat
  interestRateBPS : Nat
  durationSeconds : Nat
  collateralAmount : Nat
  collateralToken : Nat
  startTime : Nat
  dueDate : Nat
  amountPaid : Nat
  status : LoanStatus
  requestedModificationType : PaymentModificationType
  requestedModificationValue : Nat
  modificationApprovedByLender : Bool
deriving DecidableEq, Repr

/-- Zero value of `LoanOffer`. -/
def zeroOffer : LoanOffer := ⟨0, 0, 0, 0, 0, 0, 0, 0, false, false⟩

/-- Zero value of `LoanRequest`. -/
def zeroRequest : LoanRequest := ⟨0, 0, 0, 0, 0, 0, 0, 0, false, false⟩

/-- Zero value of `LoanAgreement`: note that the zero enum values are
`LoanStatus.Active` and `PaymentModificationType.None`. -/
def zeroAgreement : LoanAgreement :=
  ⟨0, 0, 0, 0, 0, 0, 0, 0, 0, 0, 0, 0, 0, 0, .Active, .None, 0, false⟩

/-- `P2PLending.BASIS_POINTS`. -/
def BASIS_POINTS : Nat := 10000

/-- Storage of the `P2PLending` contract together with the `Reputation`
contract it calls into.  `selfAddr` is the P2PLending contract address (the
`msg.sender` that Reputation's authority check sees on internal calls). -/
structure LendingState where
  loanOffers : Nat → LoanOffer
  loanRequests : Nat → LoanRequest
  loanAgreements : Nat → LoanAgreement
  reputation : ReputationState
  selfAddr : Nat

/-- Freshly deployed system: empty maps; the Reputation authority address
starts at zero until `setP2PLendingContractAddress` is called. -/
def LendingState.init (selfAddr repAddr : Nat) : LendingState :=
  ⟨fun _ => zeroOffer, fun _ => zeroRequest, fun _ => zeroAgreement,
   ReputationState.init repAddr, selfAddr⟩

/-- `P2PLending._calculateInterest`. -/
def _calculateInterest (principalAmount : Nat) (interestRateBps : Nat) : Nat :=
  if principalAmount = 0 ∨ interestRateBps = 0 then 0
  else principalAmount * interestRateBps / BASIS_POINTS

/-- `P2PLending._calculateTotalDue`. -/
def _calculateTotalDue (agreement : LoanAgreement) : Nat :=
  agreement.principalAmount +
    _calculateInterest agreement.principalAmount agreement.interestRateBPS

/-- `P2PLending.createLoanOffer` (the keccak-derived id is the `offerId`
parameter). -/
def createLoanOffer (registry : Nat → Bool) (balances : Nat → Nat → Nat)
    (s : LendingState) (sender _now offerId : Nat)
    (amount token interestRateBPS durationSeconds requiredCollateralAmount collateralToken : Nat) :
    Except String (LendingState × List TokenTransfer) :=
  if ¬registry sender then .error "P2PL: User not World ID verified"
  else if ¬(amount > 0) then .error "P2PL: Offer amount must be > 0"
  else if token = 0 then .error "P2PL: Invalid loan token"
  else if ¬(durationSeconds > 0) then .error "P2PL: Duration must be > 0"
  else if requiredCollateralAmount > 0 ∧ collateralToken = 0 then
    .error "P2PL: Invalid collateral token for non-zero amount"
  else if requiredCollateralAmount = 0 ∧ collateralToken ≠ 0 then
    .error "P2PL: Collateral token must be zero for zero amount"
  else if balances token sender < amount then
    .error "P2PL: Insufficient balance for offer"
  else
    .ok ({ s with
            loanOffers := upd s.loanOffers offerId
              ⟨offerId, sender, amount, token, interestRateBPS, durationSeconds,
               requiredCollateralAmount, collateralToken, true, false⟩ },
         [⟨token, sender, s.selfAddr, amount⟩])

/-- `P2PLending.createLoanRequest`. -/
def createLoanRequest (registry : Nat → Bool) (balances : Nat → Nat → Nat)
    (s : LendingState) (sender _now requestId : Nat)
    (amount token proposedInterestRateBPS proposedDurationSeconds
      offeredCollateralAmount offeredCollateralToken : Nat) :
    Except String (LendingState × List TokenTransfer) :=
  if ¬registry sender then .error "P2PL: User not World ID verified"
  else if ¬(amount > 0) then .error "P2PL: Request amount must be > 0"
  else if token = 0 then .error "P2PL: Invalid loan token"
  else if ¬(proposedDurationSeconds > 0) then .error "P2PL: Duration must be > 0"
  else if offeredCollateralAmount > 0 ∧ offeredCollateralToken = 0 then
    .error "P2PL: Invalid collateral token for non-zero amount"
  else if offeredCollateralAmount > 0 ∧
      balances offeredCollateralToken sender < offeredCollateralAmount then
    .error "P2PL: Insufficient collateral balance for request"
  else if offeredCollateralAmount = 0 ∧ offeredCollateralToken ≠ 0 then
    .error "P2PL: Collateral token must be zero for zero amount"
  else
    .ok ({ s with
            loanRequests := upd s.loanRequests requestId
              ⟨requestId, sender, amount, token, proposedInterestRateBPS,
               proposedDurationSeconds, offeredCollateralAmount, offeredCollateralToken,
               true, false⟩ },
         [])

/-- `P2PLending.acceptLoanOffer` (the keccak-derived agreement id is the
`newAgreementId` parameter). -/
def acceptLoanOffer (registry : Nat → Bool) (balances : Nat → Nat → Nat)
    (s : LendingState) (sender now offerId : Nat)
    (borrowerCollateralAmount borrowerCollateralToken : Nat) (newAgreementId : Nat) :
    Except String (LendingState × List TokenTransfer) :=
  if ¬registry sender then .error "P2PL: User not World ID verified"
  else
    let offer := s.loanOffers offerId
    if offer.lender = 0 then .error "P2PL: Offer does not exist"
    else if ¬offer.isActive then .error "P2PL: Offer not active"
    else if offer.isFulfilled then .error "P2PL: Offer already fulfilled"
    else if offer.lender = sender then .error "P2PL: Cannot accept own offer"
    else if offer.requiredCollateralAmount > 0 ∧
        borrowerCollateralToken ≠ offer.collateralToken then
      .error "P2PL: Collateral token mismatch"
    else if offer.requiredCollateralAmount > 0 ∧
        borrowerCollateralAmount ≠ offer.requiredCollateralAmount then
      .error "P2PL: Collateral amount mismatch"
    else if offer.requiredCollateralAmount > 0 ∧
        balances borrowerCollateralToken sender < borrowerCollateralAmount then
      .error "P2PL: Insufficient collateral balance"
    else if ¬(offer.requiredCollateralAmount > 0) ∧ borrowerCollateralAmount ≠ 0 then
      .error "P2PL: Collateral not required by offer"
    else if ¬(offer.requiredCollateralAmount > 0) ∧ borrowerCollateralToken ≠ 0 then
      .error "P2PL: Collateral not required by offer"
    else
      let collateralPull : List TokenTransfer :=
        if offer.requiredCollateralAmount > 0 then
          [⟨borrowerCollateralToken, sender, s.selfAddr, borrowerCollateralAmount⟩]
        else []
      let startTime := now
      let dueDate := startTime + offer.durationSeconds
      .ok ({ s with
              loanOffers := upd s.loanOffers offerId
                { offer with isFulfilled := true, isActive := false },
              loanAgreements := upd s.loanAgreements newAgreementId
                ⟨newAgreementId, offerId, 0, offer.lender, sender, offer.amount,
                 offer.token, offer.interestRateBPS, offer.durationSeconds,
                 borrowerCollateralAmount, borrowerCollateralToken, startTime, dueDate,
                 0, .Active, .DueDateExtension, 0, false⟩ },
           collateralPull ++ [⟨offer.token, s.selfAddr, sender, offer.amount⟩])

/-- `P2PLending.fundLoanRequest` (the keccak-derived agreement id is the
`newAgreementId` parameter). -/
def fundLoanRequest (registry : Nat → Bool) (balances : Nat → Nat → Nat)
    (s : LendingState) (sender now requestId : Nat) (newAgreementId : Nat) :
    Except String (LendingState × List TokenTransfer) :=
  if ¬registry sender then .error "P2PL: User not World ID verified"
  else
    let request := s.loanRequests requestId
    if request.borrower = 0 then .error "P2PL: Request does not exist"
    else if ¬request.isActive then .error "P2PL: Request not active"
    else if request.isFulfilled then .error "P2PL: Request already fulfilled"
    else if request.borrower = sender then .error "P2PL: Cannot fund own request"
    else if balances request.token sender < request.amount then
      .error "P2PL: Insufficient balance to fund"
    else
      let collateralPull : List TokenTransfer :=
        if request.offeredCollateralAmount > 0 then
          [⟨request.collateralToken, request.borrower, s.selfAddr,
            request.offeredCollateralAmount⟩]
        else []
      let startTime := now
      let dueDate := startTime + request.proposedDurationSeconds
      .ok ({ s with
              loanRequests := upd s.loanRequests requestId
                { request with isActive := false, isFulfilled := true },
              loanAgreements := upd s.loanAgreements newAgreementId
                ⟨newAgreementId, 0, requestId, sender, request.borrower, request.amount,
                 request.token, request.proposedInterestRateBPS,
                 request.proposedDurationSeconds, request.offeredCollateralAmount,
                 request.collateralToken, startTime, dueDate,
                 0, .Active, .DueDateExtension, 0, false⟩ },
           [⟨request.token, sender, request.borrower, request.amount⟩] ++ collateralPull)

/-- The outcome classifier inlined in `P2PLending.repayLoan` (lines 850-878 of
the source), as a function of the snapshot taken before the repayment was
processed.  `outcomeType` starts at `None` and is only assigned on the paths
the source assigns it. -/
def codeOutcomeClassifier (now dueDate : Nat) (wasModificationApprovedBeforeRepay : Bool)
    (originalModificationTypeBeforeRepay : PaymentModificationType) : PaymentOutcomeType :=
  if now ≤ dueDate then
    if wasModificationApprovedBeforeRepay then
      if originalModificationTypeBeforeRepay = PaymentModificationType.DueDateExtension then
        .OnTimeExtended
      else if originalModificationTypeBeforeRepay = PaymentModificationType.PartialPaymentAgreement then
        .PartialAgreementMetAndRepaid
      else .None
    else .OnTimeOriginal
  else
    if wasModificationApprovedBeforeRepay ∧
        originalModificationTypeBeforeRepay = PaymentModificationType.DueDateExtension then
      .LateExtended
    else .LateGraceOriginal

/-- `P2PLending.repayLoan`.  The `reputationContract != address(0)` guard of
the source is always true (the constructor and setter require a non-zero
address), so the Reputation call is always performed on full repayment. -/
def repayLoan (registry : Nat → Bool) (s : LendingState) (sender now : Nat)
    (agreementId paymentAmount : Nat) :
    Except String (LendingState × List TokenTransfer) :=
  let agreement := s.loanAgreements agreementId
  if agreement.borrower ≠ sender then .error "P2PL: Not borrower"
  else if ¬(agreement.status = LoanStatus.Active ∨
            agreement.status = LoanStatus.Overdue ∨
            agreement.status = LoanStatus.Active_PartialPaymentAgreed) then
    .error "P2PL: Loan not in repayable state"
  else if ¬(paymentAmount > 0) then .error "P2PL: Payment amount must be > 0"
  else
    let totalDue := _calculateTotalDue agreement
    if totalDue < agreement.amountPaid then .error "arithmetic underflow"
    else
      let remainingDueBeforePayment := totalDue - agreement.amountPaid
      if ¬(paymentAmount ≤ remainingDueBeforePayment) then
        .error "P2PL: Payment exceeds remaining due"
      else
        let originalModificationTypeBeforeRepay := agreement.requestedModificationType
        let wasModificationApprovedBeforeRepay := agreement.modificationApprovedByLender
        let agreedPartialPaymentValue := agreement.requestedModificationValue
        let paymentPull : List TokenTransfer :=
          [⟨agreement.loanToken, sender, agreement.lender, paymentAmount⟩]
        let newAmountPaid := agreement.amountPaid + paymentAmount
        let a1 := { agreement with amountPaid := newAmountPaid }
        let stepB :=
          if agreement.status = LoanStatus.Active_PartialPaymentAgreed then
            if paymentAmount = agreedPartialPaymentValue then
              ({ a1 with modificationApprovedByLender := false,
                         requestedModificationValue := 0 },
               if newAmountPaid ≥ totalDue then LoanStatus.Repaid
               else if now > agreement.dueDate then LoanStatus.Overdue
               else LoanStatus.Active)
            else (a1, LoanStatus.Active_PartialPaymentAgreed)
          else
            (a1,
             if newAmountPaid ≥ totalDue then LoanStatus.Repaid
             else if now > agreement.dueDate then LoanStatus.Overdue
             else LoanStatus.Active)
        let a2 := stepB.1
        let newStatus := stepB.2
        if newStatus = LoanStatus.Repaid then
          let outcomeType :=
            codeOutcomeClassifier now agreement.dueDate
              wasModificationApprovedBeforeRepay originalModificationTypeBeforeRepay
          let collateralRelease : List TokenTransfer :=
            if agreement.collateralAmount > 0 ∧ agreement.collateralToken ≠ 0 then
              [⟨agreement.collateralToken, s.selfAddr, agreement.borrower,
                agreement.collateralAmount⟩]
            else []
          match recordLoanPaymentOutcome registry s.reputation s.selfAddr agreementId
              agreement.borrower agreement.lender agreement.principalAmount outcomeType
              originalModificationTypeBeforeRepay wasModificationApprovedBeforeRepay with
          | .error e => .error e
          | .ok rep' =>
            .ok ({ s with
                    loanAgreements := upd s.loanAgreements agreementId
                      { a2 with status := newStatus },
                    reputation := rep' },
                 paymentPull ++ collateralRelease)
        else
          .ok ({ s with
                  loanAgreements := upd s.loanAgreements agreementId
                    { a2 with status := newStatus } },
               paymentPull)

/-- The slash amount computed inside the vouch loop of
`P2PLending.handleP2PDefault` for a snapshot entry with the given stake
(`tenPercentSlashBasis = 1000`). -/
def slashAmountFor (stakedAmount : Nat) : Nat :=
  let a := stakedAmount * 1000 / BASIS_POINTS
  let a := if a = 0 ∧ stakedAmount > 0 then 1 else a
  if a > stakedAmount then stakedAmount else a

/-- One iteration of the vouch loop of `P2PLending.handleP2PDefault`. -/
def slashOne (registry : Nat → Bool) (lendingAddr borrower lender : Nat)
    (rep : ReputationState) (v : Vouch) :
    Except String (ReputationState × List TokenTransfer) :=
  if v.isActive ∧ v.stakedAmount > 0 then
    let slashAmount := slashAmountFor v.stakedAmount
    if slashAmount > 0 then
      slashVouchAndReputation registry rep lendingAddr v.voucher borrower slashAmount lender
    else .ok (rep, [])
  else .ok (rep, [])

/-- The vouch loop of `P2PLending.handleP2PDefault` over the snapshot list. -/
def slashLoop (registry : Nat → Bool) (lendingAddr borrower lender : Nat) :
    ReputationState → List Vouch → Except String (ReputationState × List TokenTransfer)
  | rep, [] => .ok (rep, [])
  | rep, v :: rest =>
    match slashOne registry lendingAddr borrower lender rep v with
    | .error e => .error e
    | .ok (rep', tr) =>
      match slashLoop registry lendingAddr borrower lender rep' rest with
      | .error e => .error e
      | .ok (rep'', trs) => .ok (rep'', tr ++ trs)

/-- `P2PLending.handleP2PDefault`.  As in `repayLoan`, the
`reputationContract != address(0)` guard is always true. -/
def handleP2PDefault (registry : Nat → Bool) (s : LendingState) (_sender now : Nat)
    (agreementId : Nat) : Except String (LendingState × List TokenTransfer) :=
  let agreement := s.loanAgreements agreementId
  if agreement.lender = 0 then .error "P2PL: Agreement does not exist"
  else if agreement.status ≠ LoanStatus.Active then
    .error "P2PL: Loan not active for default"
  else if ¬(now > agreement.dueDate) then .error "P2PL: Loan not yet overdue"
  else
    let totalDue := _calculateTotalDue agreement
    if ¬(agreement.amountPaid < totalDue) then
      .error "P2PL: Loan already fully paid, cannot default"
    else
      let collateralSeize : List TokenTransfer :=
        if agreement.collateralAmount > 0 ∧ agreement.collateralToken ≠ 0 then
          [⟨agreement.collateralToken, s.selfAddr, agreement.lender,
            agreement.collateralAmount⟩]
        else []
      match updateReputationOnLoanDefault registry s.reputation s.selfAddr
          agreement.borrower with
      | .error e => .error e
      | .ok rep1 =>
        let activeVouchesSnapshot := getActiveVouchesForBorrower rep1 agreement.borrower
        match slashLoop registry s.selfAddr agreement.borrower agreement.lender
            rep1 activeVouchesSnapshot with
        | .error e => .error e
        | .ok (rep2, slashTransfers) =>
          .ok ({ s with
                  loanAgreements := upd s.loanAgreements agreementId
                    { agreement with status := LoanStatus.Defaulted },
                  reputation := rep2 },
               collateralSeize ++ slashTransfers)

/-- `P2PLending.requestPaymentModification`. -/
def requestPaymentModification (s : LendingState) (sender _now : Nat)
    (agreementId : Nat) (modificationType : PaymentModificationType) (value : Nat) :
    Except String (LendingState × List TokenTransfer) :=
  let agreement := s.loanAgreements agreementId
  if agreement.borrower ≠ sender then .error "P2PL: Not borrower"
  else if ¬(agreement.status = LoanStatus.Active ∨
            agreement.status = LoanStatus.Overdue) then
    .error "P2PL: Loan not active/overdue"
  else if ¬(value > 0) then .error "P2PL: Modification value must be > 0"
  else if modificationType = PaymentModificationType.DueDateExtension ∧
      ¬(value > agreement.dueDate) then
    .error "P2PL: New due date must be later"
  else
    .ok ({ s with
            loanAgreements := upd s.loanAgreements agreementId
              { agreement with
                  requestedModificationType := modificationType,
                  requestedModificationValue := value,
                  modificationApprovedByLender := false,
                  status := LoanStatus.PendingModificationApproval } },
         [])

/-- `P2PLending.respondToPaymentModification`. -/
def respondToPaymentModification (s : LendingState) (sender now : Nat)
    (agreementId : Nat) (approved : Bool) :
    Except String (LendingState × List TokenTransfer) :=
  let agreement := s.loanAgreements agreementId
  if agreement.lender ≠ sender then .error "P2PL: Not lender"
  else if agreement.status ≠ LoanStatus.PendingModificationApproval then
    .error "P2PL: No pending modification"
  else
    let originalType := agreement.requestedModificationType
    let originalValue := agreement.requestedModificationValue
    let a :=
      if approved then
        let a := { agreement with modificationApprovedByLender := true }
        if originalType = PaymentModificationType.DueDateExtension then
          let a := { a with dueDate := originalValue }
          { a with status := if now < a.dueDate then LoanStatus.Active else LoanStatus.Overdue }
        else if originalType = PaymentModificationType.PartialPaymentAgreement then
          { a with status := LoanStatus.Active_PartialPaymentAgreed }
        else a
      else
        { agreement with
            modificationApprovedByLender := false,
            status := if now < agreement.dueDate then LoanStatus.Active else LoanStatus.Overdue }
    .ok ({ s with loanAgreements := upd s.loanAgreements agreementId a }, [])

/-! ## The transition system

One `LStep k s s'` is one successful externally-invoked transaction of kind
`k`.  The read-only collaborators (`UserRegistry.isUserRegistered` and ERC20
`balanceOf`) are existentially chosen per step: this over-approximates every
actual registry content and token balance, so invariants proved over
`Reachable` hold for the deployed system.  A reverted transaction has no
successor state and therefore needs no step. -/

/-- Labels for the mutating operations of the system. -/
inductive StepKind where
  | createOffer
  | createRequest
  | acceptOffer
  | fundRequest
  | repay
  | handleDefault
  | requestMod
  | respondMod
  | addVouchOp
  | removeVouchOp
  | recordOutcomeOp
  | recordDefaultOp
  | slashVouchOp
  | setLendingAddrOp
deriving DecidableEq, Repr

/-- One successful transaction of the system. -/
inductive LStep : StepKind → LendingState → LendingState → Prop where
  | createOffer (registry : Nat → Bool) (balances : Nat → Nat → Nat)
      (s s' : LendingState) (tr : List TokenTransfer)
      (sender now offerId amount token rate dur reqColl collTok : Nat)
      (hsender : sender ≠ 0)
      (h : createLoanOffer registry balances s sender now offerId
             amount token rate dur reqColl collTok = .ok (s', tr)) :
      LStep .createOffer s s'
  | createRequest (registry : Nat → Bool) (balances : Nat → Nat → Nat)
      (s s' : LendingState) (tr : List TokenTransfer)
      (sender now requestId amount token rate dur offColl collTok : Nat)
      (hsender : sender ≠ 0)
      (h : createLoanRequest registry balances s sender now requestId
             amount token rate dur offColl collTok = .ok (s', tr)) :
      LStep .createRequest s s'
  | acceptOffer (registry : Nat → Bool) (balances : Nat → Nat → Nat)
      (s s' : LendingState) (tr : List TokenTransfer)
      (sender now offerId collAmt collTok newAgreementId : Nat)
      (hsender : sender ≠ 0)
      (h : acceptLoanOffer registry balances s sender now offerId
             collAmt collTok newAgreementId = .ok (s', tr)) :
      LStep .acceptOffer s s'
  | fundRequest (registry : Nat → Bool) (balances : Nat → Nat → Nat)
      (s s' : LendingState) (tr : List TokenTransfer)
      (sender now requestId newAgreementId : Nat)
      (hsender : sender ≠ 0)
      (h : fundLoanRequest registry balances s sender now requestId newAgreementId
             = .ok (s', tr)) :
      LStep .fundRequest s s'
  | repay (registry : Nat → Bool) (s s' : LendingState) (tr : List TokenTransfer)
      (sender now agreementId paymentAmount : Nat)
      (hsender : sender ≠ 0)
      (h : repayLoan registry s sender now agreementId paymentAmount = .ok (s', tr)) :
      LStep .repay s s'
  | handleDefault (registry : Nat → Bool) (s s' : LendingState) (tr : List TokenTransfer)
      (sender now agreementId : Nat)
      (hsender : sender ≠ 0)
      (h : handleP2PDefault registry s sender now agreementId = .ok (s', tr)) :
      LStep .handleDefault s s'
  | requestMod (s s' : LendingState) (tr : List TokenTransfer)
      (sender now agreementId : Nat) (modificationType : PaymentModificationType)
      (value : Nat)
      (hsender : sender ≠ 0)
      (h : requestPaymentModification s sender now agreementId modificationType value
             = .ok (s', tr)) :
      LStep .requestMod s s'
  | respondMod (s s' : LendingState) (tr : List TokenTransfer)
      (sender now agreementId : Nat) (approved : Bool)
      (hsender : sender ≠ 0)
      (h : respondToPaymentModification s sender now agreementId approved = .ok (s', tr)) :
      LStep .respondMod s s'
  | addVouchOp (registry : Nat → Bool) (s : LendingState) (rep' : ReputationState)
      (tr : List TokenTransfer) (sender borrower amount token : Nat)
      (hsender : sender ≠ 0)
      (h : addVouch registry s.reputation sender borrower amount token = .ok (rep', tr)) :
      LStep .addVouchOp s { s with reputation := rep' }
  | removeVouchOp (registry : Nat → Bool) (s : LendingState) (rep' : ReputationState)
      (tr : List TokenTransfer) (sender borrower : Nat)
      (hsender : sender ≠ 0)
      (h : removeVouch registry s.reputation sender borrower = .ok (rep', tr)) :
      LStep .removeVouchOp s { s with reputation := rep' }
  | recordOutcomeOp (registry : Nat → Bool) (s : LendingState) (rep' : ReputationState)
      (sender agreementId borrower lender principal : Nat)
      (outcome : PaymentOutcomeType) (modType : PaymentModificationType)
      (lenderApproved : Bool)
      (hsender : sender ≠ 0)
      (h : recordLoanPaymentOutcome registry s.reputation sender agreementId borrower
             lender principal outcome modType lenderApproved = .ok rep') :
      LStep .recordOutcomeOp s { s with reputation := rep' }
  | recordDefaultOp (registry : Nat → Bool) (s : LendingState) (rep' : ReputationState)
      (sender borrower : Nat)
      (hsender : sender ≠ 0)
      (h : updateReputationOnLoanDefault registry s.reputation sender borrower = .ok rep') :
      LStep .recordDefaultOp s { s with reputation := rep' }
  | slashVouchOp (registry : Nat → Bool) (s : LendingState) (rep' : ReputationState)
      (tr : List TokenTransfer) (sender voucher borrower amount payee : Nat)
      (hsender : sender ≠ 0)
      (h : slashVouchAndReputation registry s.reputation sender voucher borrower amount
             payee = .ok (rep', tr)) :
      LStep .slashVouchOp s { s with reputation := rep' }
  | setLendingAddrOp (s : LendingState) (rep' : ReputationState) (newAddr : Nat)
      (h : setP2PLendingContractAddress s.reputation newAddr = .ok rep') :
      LStep .setLendingAddrOp s { s with reputation := rep' }

/-- States reachable from a freshly deployed system by successful
transactions. -/
inductive Reachable : LendingState → Prop where
  | init (selfAddr repAddr : Nat) : Reachable (LendingState.init selfAddr repAddr)
  | step (k : StepKind) (s s' : LendingState) :
      Reachable s → LStep k s s' → Reachable s'

/-! ## Specification-side definitions and invariants -/

/-- The outcome classifier of spec §4.4, written as the first-matching rule of
the rule list (this definition follows the spec wording; it is compared with
`codeOutcomeClassifier`, which follows the source). -/
def specOutcomeFirstMatch (now dueDate : Nat) (modType : PaymentModificationType)
    (approved : Bool) : PaymentOutcomeType :=
  if now ≤ dueDate ∧ approved = true ∧ modType = PaymentModificationType.DueDateExtension then
    .OnTimeExtended
  else if now ≤ dueDate ∧ approved = true ∧
      modType = PaymentModificationType.PartialPaymentAgreement then
    .PartialAgreementMetAndRepaid
  else if now ≤ dueDate then .OnTimeOriginal
  else if approved = true ∧ modType = PaymentModificationType.DueDateExtension then
    .LateExtended
  else .LateGraceOriginal

/-- Per-agreement inductive invariant:
1. `amount_paid ≤ total_due`;
2. while a modification is pending and of type DueDateExtension, the
   requested value is strictly later than the current due date;
3. in a repayable status, an approved modification has a non-`None` type. -/
def AgreementInv (a : LoanAgreement) : Prop :=
  a.amountPaid ≤ _calculateTotalDue a ∧
  (a.status = LoanStatus.PendingModificationApproval →
    a.requestedModificationType = PaymentModificationType.DueDateExtension →
    a.dueDate < a.requestedModificationValue) ∧
  ((a.status = LoanStatus.Active ∨ a.status = LoanStatus.Overdue ∨
    a.status = LoanStatus.Active_PartialPaymentAgreed) →
    a.modificationApprovedByLender = true →
    a.requestedModificationType ≠ PaymentModificationType.None)

/-- System invariant: every agreement slot satisfies `AgreementInv`. -/
def StateInv (s : LendingState) : Prop := ∀ id, AgreementInv (s.loanAgreements id)

/-! ## Concrete fixtures

Addresses used: lender `1`, borrower `2`, voucher `3`, loan token `5`,
P2PLending contract `7`, Reputation contract `8`.  Offer ids are `100`,
agreement ids `200`. -/

/-- Fixture registry view: every address World-ID registered. -/
def regAll : Nat → Bool := fun _ => true

/-- Fixture balance view: every holder has ample balance of every token. -/
def balAll : Nat → Nat → Nat := fun _ _ => 10 ^ 30

/-- Deployed and wired system: the Reputation authority has been pointed at
the P2PLending contract via `setP2PLendingContractAddress`. -/
def wired : LendingState :=
  { LendingState.init 7 8 with
      reputation := { ReputationState.init 8 with p2pLendingContractAddress := 7 } }

/-- Extract the success state of a trace (traces used below all succeed,
which the theorems check by computing concrete fields). -/
def forceOk (r : Except String LendingState) : LendingState :=
  match r with
  | .ok s => s
  | .error _ => LendingState.init 0 0

/-- Trace for C1: offer of 1000 at 1000 bps for 10 seconds, accepted at
t = 10 (due date 20), partially repaid (50) at t = 25, which sets the
agreement status to `Overdue`. -/
def overdueTrace : Except String LendingState := do
  let (s, _) ← createLoanOffer regAll balAll wired 1 10 100 1000 5 1000 10 0 0
  let (s, _) ← acceptLoanOffer regAll balAll s 2 10 100 0 0 200
  let (s, _) ← repayLoan regAll s 2 25 200 50
  pure s

/-- The concrete `Overdue` state of the C1 trace. -/
def overdueState : LendingState := forceOk overdueTrace

/-- Trace for C2 (scenario S5 of the spec): offer 90·10¹⁸ at 1000 bps for
864000 s, accepted at t = 1000 (due 865000); borrower requests a
PartialPaymentAgreement of 30·10¹⁸, lender approves, borrower pays exactly
30·10¹⁸ at t = 4000.  `s5Mid` is the state after the agreed partial payment. -/
def s5MidTrace : Except String LendingState := do
  let (s, _) ← createLoanOffer regAll balAll wired 1 1000 100 (90 * 10 ^ 18) 5 1000 864000 0 0
  let (s, _) ← acceptLoanOffer regAll balAll s 2 1000 100 0 0 200
  let (s, _) ← requestPaymentModification s 2 2000 200
      PaymentModificationType.PartialPaymentAgreement (30 * 10 ^ 18)
  let (s, _) ← respondToPaymentModification s 1 3000 200 true
  let (s, _) ← repayLoan regAll s 2 4000 200 (30 * 10 ^ 18)
  pure s

/-- State after the met partial payment of scenario S5. -/
def s5Mid : LendingState := forceOk s5MidTrace

/-- Final state of scenario S5: the borrower repays the remaining 69·10¹⁸
before the due date at t = 5000. -/
def s5Final : LendingState :=
  forceOk (do
    let (s, _) ← repayLoan regAll s5Mid 2 5000 200 (69 * 10 ^ 18)
    pure s)

/-- Trace for C3: offer 100·10¹⁸ at 1000 bps, accepted; the borrower never
requests any modification and repays the full 110·10¹⁸ before the due
date. -/
def neverModifiedTrace : Except String LendingState := do
  let (s, _) ← createLoanOffer regAll balAll wired 1 1000 100 (100 * 10 ^ 18) 5 1000 864000 0 0
  let (s, _) ← acceptLoanOffer regAll balAll s 2 1000 100 0 0 200
  let (s, _) ← repayLoan regAll s 2 5000 200 (110 * 10 ^ 18)
  pure s

/-- Final state of the C3 trace. -/
def neverModifiedState : LendingState := forceOk neverModifiedTrace

/-- Trace for C4 (pre-default): a loan of 1000 at 1000 bps due at t = 20,
and a voucher who vouches 100, removes the vouch, then vouches 100 again —
leaving two entries for the pair (3, 2) in the borrower's received-vouch
history while the (3, 2) map cell is active. -/
def revouchTrace : Except String LendingState := do
  let (s, _) ← createLoanOffer regAll balAll wired 1 10 100 1000 5 1000 10 0 0
  let (s, _) ← acceptLoanOffer regAll balAll s 2 10 100 0 0 200
  let (rep, _) ← addVouch regAll s.reputation 3 2 100 5
  let (rep, _) ← removeVouch regAll rep 3 2
  let (rep, _) ← addVouch regAll rep 3 2 100 5
  pure { s with reputation := rep }

/-- The concrete pre-default state of the C4 trace. -/
def revouchState : LendingState := forceOk revouchTrace

/-- State after `handleP2PDefault` runs on the C4 trace at t = 25. -/
def revouchDefaulted : LendingState :=
  forceOk (do
    let (s, _) ← handleP2PDefault regAll revouchState 9 25 200
    pure s)

/-- Registry with address 1 registered under the one-byte name `[65]` at t = 5. -/
def regFixture : RegistryState :=
  match registerUser RegistryState.init 1 [65] 5 with
  | .ok s => s
  | .error _ => RegistryState.init

/-- Small loan chain: offer of 1000 at 1000 bps for 10 seconds (t = 10). -/
def smallOfferState : LendingState :=
  forceOk (do
    let (s, _) ← createLoanOffer regAll balAll wired 1 10 100 1000 5 1000 10 0 0
    pure s)

/-- Small loan chain: borrower 2 accepts at t = 10, due date 20. -/
def smallAcceptedState : LendingState :=
  forceOk (do
    let (s, _) ← acceptLoanOffer regAll balAll smallOfferState 2 10 100 0 0 200
    pure s)

/-- Small loan chain: borrower requests a DueDateExtension to t = 30. -/
def pendingExtState : LendingState :=
  forceOk (do
    let (s, _) ← requestPaymentModification smallAcceptedState 2 12 200
        PaymentModificationType.DueDateExtension 30
    pure s)

/-- Small loan chain: voucher 3 stakes 100 of token 5 for borrower 2. -/
def singleVouchState : LendingState :=
  forceOk (do
    let (rep, _) ← addVouch regAll smallAcceptedState.reputation 3 2 100 5
    pure { smallAcceptedState with reputation := rep })

/-- Small loan chain: the lender approves the pending extension at t = 13. -/
def respondedExtState : LendingState :=
  forceOk (do
    let (s, _) ← respondToPaymentModification pendingExtState 1 13 200 true
    pure s)

/-- Big loan chain: offer of 100·10¹⁸ at 1000 bps for 864000 s (t = 1000). -/
def bigOfferState : LendingState :=
  forceOk (do
    let (s, _) ← createLoanOffer regAll balAll wired 1 1000 100 (100 * 10 ^ 18) 5 1000 864000 0 0
    pure s)

/-- Big loan chain: borrower 2 accepts at t = 1000, due date 865000. -/
def bigAcceptedState : LendingState :=
  forceOk (do
    let (s, _) ← acceptLoanOffer regAll balAll bigOfferState 2 1000 100 0 0 200
    pure s)

/-! ## Theorems -/

@[simp] theorem upd_same {α : Type} (f : Nat → α) (k : Nat) (v : α) : upd f k v k = v := by
  simp [upd]

@[simp] theorem upd_other {α : Type} (f : Nat → α) (k x : Nat) (v : α) (h : x ≠ k) :
    upd f k v x = f x := by
  simp [upd, h]

@[simp] theorem upd2_same {α : Type} (f : Nat → Nat → α) (k1 k2 : Nat) (v : α) :
    upd2 f k1 k2 v k1 k2 = v := by
  simp [upd2]

theorem upd2_other {α : Type} (f : Nat → Nat → α) (k1 k2 x y : Nat) (v : α)
    (h : ¬(x = k1 ∧ y = k2)) : upd2 f k1 k2 v x y = f x y := by
  simp only [upd2, if_neg h]

/-- Claim C1 (counterexample): a reachable agreement in status `Overdue` with
`now > due_date` and `amount_paid < total_due`, on which `handleP2PDefault`
does not succeed but reverts with "P2PL: Loan not active for default" — the
claim asserts it succeeds in particular when the status is Overdue. -/
theorem c1_overdue_default_reverts_cex :
    (overdueState.loanAgreements 200).status = LoanStatus.Overdue ∧
    (overdueState.loanAgreements 200).dueDate < 26 ∧
    (overdueState.loanAgreements 200).amountPaid <
      _calculateTotalDue (overdueState.loanAgreements 200) ∧
    handleP2PDefault regAll overdueState 9 26 200 =
      .error "P2PL: Loan not active for default" :=
  ⟨by decide, by decide, by decide, rfl⟩

/-- Claim C2 (counterexample): in the S5 scenario (offer 90·10¹⁸ at 1000 bps,
PartialPaymentAgreement of 30·10¹⁸ approved and met exactly, remainder
69·10¹⁸ repaid before the due date) the borrower's score becomes 10 and the
lender's 5, not the claimed +8 and +4: paying the agreed partial amount reset
`modificationApprovedByLender`, so the settling repayment is not classified
`PartialAgreementMetAndRepaid`. -/
theorem c2_s5_scenario_cex :
    (s5Final.loanAgreements 200).status = LoanStatus.Repaid ∧
    (s5Final.reputation.userReputations 2).currentReputationScore = 10 ∧
    (s5Final.reputation.userReputations 1).currentReputationScore = 5 ∧
    (10 : Int) ≠ 8 ∧ (5 : Int) ≠ 4 :=
  ⟨by decide, by decide, by decide, by decide, by decide⟩

/-- Claim C2 (amended): in the S5 scenario the lender approves the
PartialPaymentAgreement and the borrower pays exactly the agreed 30·10¹⁸,
which returns the status to Active and clears the approval flag and value
(the modification type is kept); the settling repayment therefore snapshots
`approved = false`, is classified `OnTimeOriginal`
(`codeOutcomeClassifier` on the snapshot), and the borrower's score rises by
10, the lender's by 5 — with the lender's `modifications_rejected_by_lender`
counter incremented by 1 and `modifications_approved_by_lender` left at 0. -/
theorem c2_s5_scenario_actual :
    (s5Mid.loanAgreements 200).status = LoanStatus.Active ∧
    (s5Mid.loanAgreements 200).modificationApprovedByLender = false ∧
    (s5Mid.loanAgreements 200).requestedModificationValue = 0 ∧
    (s5Mid.loanAgreements 200).requestedModificationType =
      PaymentModificationType.PartialPaymentAgreement ∧
    codeOutcomeClassifier 5000 (s5Mid.loanAgreements 200).dueDate
      (s5Mid.loanAgreements 200).modificationApprovedByLender
      (s5Mid.loanAgreements 200).requestedModificationType =
      PaymentOutcomeType.OnTimeOriginal ∧
    (s5Final.loanAgreements 200).status = LoanStatus.Repaid ∧
    (s5Final.reputation.userReputations 2).currentReputationScore = 10 ∧
    (s5Final.reputation.userReputations 2).loansRepaidOnTime = 1 ∧
    (s5Final.reputation.userReputations 1).currentReputationScore = 5 ∧
    (s5Final.reputation.userReputations 1).modificationsRejectedByLender = 1 ∧
    (s5Final.reputation.userReputations 1).modificationsApprovedByLender = 0 :=
  ⟨by decide, by decide, by decide, by decide, by decide, by decide, by decide,
   by decide, by decide, by decide, by decide⟩

/-- Claim C3 (code bug): for a loan repaid in full whose borrower never
requested any modification, the lender's `modifications_rejected_by_lender`
counter is *not* left unchanged: `acceptLoanOffer` initializes
`requestedModificationType` to `DueDateExtension` instead of `None`
(contradicting the enum's own "None = default, no modification
active/requested" documentation), so `recordLoanPaymentOutcome` sees a
non-`None` unapproved modification type and increments the rejected counter
from 0 to 1. -/
theorem c3_unmodified_loan_increments_rejected :
    (neverModifiedState.loanAgreements 200).status = LoanStatus.Repaid ∧
    (neverModifiedState.loanAgreements 200).requestedModificationType =
      PaymentModificationType.DueDateExtension ∧
    (neverModifiedState.loanAgreements 200).modificationApprovedByLender = false ∧
    (neverModifiedState.reputation.userReputations 1).modificationsRejectedByLender = 1 ∧
    (neverModifiedState.reputation.userReputations 1).modificationsApprovedByLender = 0 :=
  ⟨by decide, by decide, by decide, by decide, by decide⟩

/-- Claim C4 (counterexample): after the voucher removes a vouch for the
borrower and vouches again, the snapshot returned by
`getActiveVouchesForBorrower` lists the pair (3, 2) twice, and a single
`handleP2PDefault` slashes that voucher's vouch twice (stake 100 → 80,
`times_defaulted_as_voucher` = 2, score −40) — refuting that the snapshot
lists each pair at most once and that a vouch is slashed at most once. -/
theorem c4_snapshot_duplicate_cex :
    getActiveVouchesForBorrower revouchState.reputation 2 =
      [⟨3, 2, 5, 100, true⟩, ⟨3, 2, 5, 100, true⟩] ∧
    (revouchDefaulted.loanAgreements 200).status = LoanStatus.Defaulted ∧
    (revouchDefaulted.reputation.userReputations 3).timesDefaultedAsVoucher = 2 ∧
    (revouchDefaulted.reputation.userReputations 3).currentReputationScore = -40 ∧
    (revouchDefaulted.reputation.activeVouches 3 2).stakedAmount = 80 :=
  ⟨by decide, by decide, by decide, by decide, by decide⟩

/-- Claim C4 (amended): the snapshot returned by
`getActiveVouchesForBorrower` lists one entry per record of the borrower's
received-vouch history whose (voucher, borrower) map cell is currently
active — so after a remove-and-re-vouch (which appends a second history
record for the same pair) the pair appears twice, and `handleP2PDefault`
slashes that vouch once per occurrence: here two slashes of 10 each are
transferred to the lender. -/
theorem c4_snapshot_once_per_history_entry :
    (∀ (s : ReputationState) (b : Nat),
      (getActiveVouchesForBorrower s b).length =
        (s.userVouchesReceived b).countP
          (fun v => (s.activeVouches v.voucher v.borrower).isActive)) ∧
    handleP2PDefault regAll revouchState 9 25 200 =
      .ok (revouchDefaulted, [⟨5, 8, 1, 10⟩, ⟨5, 8, 1, 10⟩]) ∧
    (revouchDefaulted.reputation.activeVouches 3 2).isActive = true :=
  ⟨fun s b => by
      simp [getActiveVouchesForBorrower, List.countP_eq_length_filter],
   rfl, by decide⟩

/-- Claim C8: each of `recordLoanPaymentOutcome`, `updateReputationOnLoanDefault`
(record_loan_default) and `slashVouchAndReputation`, invoked by any caller
other than the configured Lending-authority address, fails with the
authorization error (a revert, leaving all Reputation state unchanged). -/
theorem c8_authority_gating (registry : Nat → Bool) (rep : ReputationState)
    (sender : Nat) (h : sender ≠ rep.p2pLendingContractAddress) :
    (∀ agreementId borrower lender principal outcome modType lenderApproved,
      recordLoanPaymentOutcome registry rep sender agreementId borrower lender principal
        outcome modType lenderApproved =
        .error "Reputation: Caller is not P2PLending contract") ∧
    (∀ borrower,
      updateReputationOnLoanDefault registry rep sender borrower =
        .error "Reputation: Caller is not P2PLending contract") ∧
    (∀ voucher borrower amount payee,
      slashVouchAndReputation registry rep sender voucher borrower amount payee =
        .error "Reputation: Caller is not P2PLending contract") := by
  refine ⟨?_, ?_, ?_⟩ <;> intros <;>
    simp only [recordLoanPaymentOutcome, updateReputationOnLoanDefault,
      slashVouchAndReputation, if_pos h]

/-- Witness for C8 at a concrete state: the wired Reputation authority is
address 7, and caller 9 is rejected by all three mutators. -/
theorem c8_authority_gating_witness :
    9 ≠ wired.reputation.p2pLendingContractAddress ∧
    recordLoanPaymentOutcome regAll wired.reputation 9 0 2 1 100
      PaymentOutcomeType.OnTimeOriginal PaymentModificationType.None false =
      .error "Reputation: Caller is not P2PLending contract" ∧
    updateReputationOnLoanDefault regAll wired.reputation 9 2 =
      .error "Reputation: Caller is not P2PLending contract" ∧
    slashVouchAndReputation regAll wired.reputation 9 3 2 10 1 =
      .error "Reputation: Caller is not P2PLending contract" :=
  ⟨by decide,
   (c8_authority_gating regAll wired.reputation 9 (by decide)).1 0 2 1 100 _ _ _,
   (c8_authority_gating regAll wired.reputation 9 (by decide)).2.1 2,
   (c8_authority_gating regAll wired.reputation 9 (by decide)).2.2 3 2 10 1⟩

/-- Claim C10: `registerUser` fails with AlreadyRegistered whenever the caller
is already registered; otherwise fails with NameInvalid when the name is
empty or longer than 50 bytes; on success it records the timestamp, appends
the caller to the ordered registry list and increments the total-registered
count; and the registered flag, once true, survives every UserRegistry
operation. -/
theorem c10_register_one_shot :
    (∀ (s : RegistryState) (sender : Nat) (name : List Nat) (now : Nat),
      ((s.userProfiles sender).isRegistered = true →
        registerUser s sender name now =
          .error "UserRegistry: Address already registered") ∧
      ((s.userProfiles sender).isRegistered = false →
        name.length = 0 ∨ name.length > 50 →
        registerUser s sender name now = .error "UserRegistry: Name cannot be empty" ∨
        registerUser s sender name now = .error "UserRegistry: Name too long") ∧
      (∀ s', registerUser s sender name now = .ok s' →
        s'.userProfiles sender = ⟨true, name, now⟩ ∧
        s'.registeredUsers = s.registeredUsers ++ [sender] ∧
        s'.totalUsers = s.totalUsers + 1)) ∧
    (∀ s s', RegistryStep s s' → ∀ a, (s.userProfiles a).isRegistered = true →
      (s'.userProfiles a).isRegistered = true) := by
  constructor
  · intro s sender name now
    refine ⟨fun hreg => ?_, fun hnreg hbad => ?_, fun s' hok => ?_⟩
    · simp only [registerUser, if_pos hreg]
    · rcases hbad with hempty | hlong
      · left
        simp only [registerUser, hnreg, if_pos hempty]
        simp
      · right
        have hne : ¬name.length = 0 := by omega
        simp only [registerUser, hnreg, if_neg hne, if_pos hlong]
        simp
    · unfold registerUser at hok
      split_ifs at hok
      injection hok with hok
      subst hok
      refine ⟨?_, rfl, rfl⟩
      simp [upd]
  · intro s s' hstep a hreg
    cases hstep with
    | register sender name now h =>
      unfold registerUser at h
      split_ifs at h
      injection h with h
      subst h
      by_cases hx : a = sender
      · subst hx; simp [upd]
      · simpa [upd, hx] using hreg
    | update sender newName h =>
      unfold updateProfile at h
      split_ifs at h
      injection h with h
      subst h
      by_cases hx : a = sender
      · subst hx; simpa [upd] using hreg
      · simpa [upd, hx] using hreg

/-- Witness for C10 at concrete inputs: address 1 is registered in
`regFixture`, so re-registering fails; a fresh registry rejects an empty
name; and the successful registration that built `regFixture` recorded the
profile, list entry and count. -/
theorem c10_register_one_shot_witness :
    registerUser regFixture 1 [66] 9 =
      .error "UserRegistry: Address already registered" ∧
    (registerUser RegistryState.init 2 [] 9 =
       .error "UserRegistry: Name cannot be empty" ∨
     registerUser RegistryState.init 2 [] 9 =
       .error "UserRegistry: Name too long") ∧
    regFixture.userProfiles 1 = ⟨true, [65], 5⟩ ∧
    regFixture.registeredUsers = [1] ∧
    regFixture.totalUsers = 1 := by
  have h1 := (c10_register_one_shot.1 regFixture 1 [66] 9).1 (by decide)
  have h2 := (c10_register_one_shot.1 RegistryState.init 2 [] 9).2.1 (by decide)
      (Or.inl rfl)
  have h3 := (c10_register_one_shot.1 RegistryState.init 1 [65] 5).2.2 regFixture rfl
  exact ⟨h1, h2, h3.1, h3.2.1, h3.2.2⟩

/-- The slash amount of the `handleP2PDefault` loop equals
`min stake (max 1 (stake * 1000 / 10_000))`. -/
theorem slashAmountFor_eq_min_max (s : Nat) :
    slashAmountFor s = min s (max 1 (s * 1000 / 10000)) := by
  simp only [slashAmountFor, BASIS_POINTS]
  split_ifs <;> omega

theorem slashAmountFor_pos (s : Nat) (h : 0 < s) : 0 < slashAmountFor s := by
  rw [slashAmountFor_eq_min_max]; omega

theorem slashAmountFor_le (s : Nat) : slashAmountFor s ≤ s := by
  rw [slashAmountFor_eq_min_max]; omega

/-- `_initializeReputationProfileIfNotExists` is the identity on profiles that
are already initialized (non-zero `userAddress`). -/
theorem initProfile_of_ne_zero (registry : Nat → Bool) (s : ReputationState) (u : Nat)
    (h : (s.userReputations u).userAddress ≠ 0) :
    initializeReputationProfileIfNotExists registry s u = s := by
  unfold initializeReputationProfileIfNotExists
  rw [if_neg]
  rintro ⟨h0, _⟩
  exact h h0

/-- Claim C6: for an active vouch with stake `s > 0` picked up by the
`handleP2PDefault` loop, the amount slashed is exactly
`min s (max 1 (s * 1000 / 10_000))`; that amount is deducted from the vouch's
`stakedAmount` and the voucher's `vouchingStakeAmount`, transferred (in the
vouch's token) from Reputation custody to the defaulted loan's lender, the
voucher's score decreases by 20 (`VOUCH_DEFAULTED_VOUCHER`),
`timesDefaultedAsVoucher` increments, and the vouch becomes inactive exactly
when its stake reaches zero. -/
theorem c6_slash_amount_and_effects (registry : Nat → Bool) (rep : ReputationState)
    (borrower lender : Nat) (v : Vouch)
    (hcell : rep.activeVouches v.voucher borrower = v)
    (hact : v.isActive = true) (hpos : 0 < v.stakedAmount)
    (hinitp : (rep.userReputations v.voucher).userAddress ≠ 0)
    (hagg : slashAmountFor v.stakedAmount ≤
      (rep.userReputations v.voucher).vouchingStakeAmount) :
    slashAmountFor v.stakedAmount =
      min v.stakedAmount (max 1 (v.stakedAmount * 1000 / 10000)) ∧
    ∃ rep',
      slashOne registry rep.p2pLendingContractAddress borrower lender rep v =
        .ok (rep', [⟨v.tokenAddress, rep.selfAddr, lender, slashAmountFor v.stakedAmount⟩]) ∧
      (rep'.activeVouches v.voucher borrower).stakedAmount =
        v.stakedAmount - slashAmountFor v.stakedAmount ∧
      ((rep'.activeVouches v.voucher borrower).isActive = false ↔
        v.stakedAmount - slashAmountFor v.stakedAmount = 0) ∧
      (rep'.userReputations v.voucher).vouchingStakeAmount =
        (rep.userReputations v.voucher).vouchingStakeAmount -
          slashAmountFor v.stakedAmount ∧
      (rep'.userReputations v.voucher).currentReputationScore =
        (rep.userReputations v.voucher).currentReputationScore +
          REPUTATION_POINTS_VOUCH_DEFAULTED_VOUCHER ∧
      (rep'.userReputations v.voucher).timesDefaultedAsVoucher =
        (rep.userReputations v.voucher).timesDefaultedAsVoucher + 1 := by
  refine ⟨slashAmountFor_eq_min_max v.stakedAmount, ?_⟩
  have hpos' : 0 < slashAmountFor v.stakedAmount := slashAmountFor_pos _ hpos
  have hle' : slashAmountFor v.stakedAmount ≤ v.stakedAmount := slashAmountFor_le _
  unfold slashOne
  rw [if_pos ⟨hact, hpos⟩, if_pos hpos']
  unfold slashVouchAndReputation
  rw [if_neg (by simp)]
  simp only [hcell, hact, not_true, if_neg, Bool.true_eq_false]
  rw [if_neg (by simp), if_neg (by omega), if_neg (by omega)]
  rw [initProfile_of_ne_zero registry rep _ hinitp]
  rw [if_neg (by simpa [Nat.not_lt] using hagg)]
  by_cases hz : v.stakedAmount - slashAmountFor v.stakedAmount = 0
  · rw [if_pos hz]
    refine ⟨_, rfl, ?_, ?_, ?_, ?_, ?_⟩ <;>
      simp [updProfile, upd, upd2, hz]
  · rw [if_neg hz]
    refine ⟨_, rfl, ?_, ?_, ?_, ?_, ?_⟩ <;>
      simp [updProfile, upd, upd2, hact, hz]

/-- Witness for C6 at a concrete state: the single active vouch of 100 staked
by voucher 3 for borrower 2 in `singleVouchState` is slashed by exactly 10. -/
theorem c6_slash_amount_and_effects_witness :
    slashAmountFor 100 = 10 ∧
    ∃ rep',
      slashOne regAll 7 2 1 singleVouchState.reputation ⟨3, 2, 5, 100, true⟩ =
        .ok (rep', [⟨5, 8, 1, 10⟩]) ∧
      (rep'.activeVouches 3 2).stakedAmount = 90 ∧
      (rep'.userReputations 3).vouchingStakeAmount = 90 ∧
      (rep'.userReputations 3).currentReputationScore = -20 ∧
      (rep'.userReputations 3).timesDefaultedAsVoucher = 1 := by
  have h := c6_slash_amount_and_effects regAll singleVouchState.reputation 2 1
    ⟨3, 2, 5, 100, true⟩ (by decide) rfl (by decide) (by decide) (by decide)
  obtain ⟨hf, rep', hok, hstake, _hia, hagg, hscore, htimes⟩ := h
  have h7 : singleVouchState.reputation.p2pLendingContractAddress = 7 := by decide
  rw [h7] at hok
  refine ⟨by decide, rep', ?_, ?_, ?_, ?_, ?_⟩
  · simpa using hok
  · simpa using hstake
  · rw [hagg]; decide
  · rw [hscore]; decide
  · rw [htimes]; decide

/-- Success and frame lemma for `slashVouchAndReputation`: under its
preconditions it succeeds and only touches the (voucher, borrower) vouch cells
and the voucher's profile. -/
theorem slashVouch_ok_frame (registry : Nat → Bool) (rep : ReputationState)
    (sender voucher borrower slash payee : Nat)
    (hsender : sender = rep.p2pLendingContractAddress)
    (hact : (rep.activeVouches voucher borrower).isActive = true)
    (hle : slash ≤ (rep.activeVouches voucher borrower).stakedAmount)
    (hpos : 0 < slash)
    (hinitp : (rep.userReputations voucher).userAddress ≠ 0)
    (hagg : slash ≤ (rep.userReputations voucher).vouchingStakeAmount) :
    ∃ rep' tr,
      slashVouchAndReputation registry rep sender voucher borrower slash payee =
        .ok (rep', tr) ∧
      (∀ x y, x ≠ voucher → rep'.activeVouches x y = rep.activeVouches x y) ∧
      (∀ x, x ≠ voucher → rep'.userReputations x = rep.userReputations x) ∧
      rep'.p2pLendingContractAddress = rep.p2pLendingContractAddress ∧
      rep'.selfAddr = rep.selfAddr ∧
      rep'.userVouchesReceived = rep.userVouchesReceived := by
  simp only [slashVouchAndReputation, initProfile_of_ne_zero registry rep _ hinitp]
  split_ifs with h1 h2 h3
  · exact absurd hsender h1
  · exact absurd h2 (by omega)
  · refine ⟨_, _, rfl, ?_, ?_, rfl, rfl, rfl⟩
    · intro x y hx
      simp only [updProfile]
      rw [upd2_other _ _ _ _ _ _ (by rintro ⟨h', _⟩; exact hx h'),
        upd2_other _ _ _ _ _ _ (by rintro ⟨h', _⟩; exact hx h')]
    · intro x hx
      simp [updProfile, upd, hx]
  · refine ⟨_, _, rfl, ?_, ?_, rfl, rfl, rfl⟩
    · intro x y hx
      simp only [updProfile]
      rw [upd2_other _ _ _ _ _ _ (by rintro ⟨h', _⟩; exact hx h')]
    · intro x hx
      simp [updProfile, upd, hx]

/-- Success lemma for the `handleP2PDefault` vouch loop: when the snapshot
entries describe distinct vouchers whose map cells agree with the snapshot and
whose profiles are initialized with sufficient aggregate stake, every
iteration's slash succeeds. -/
theorem slashLoop_ok (registry : Nat → Bool) (lendingAddr borrower lender : Nat)
    (l : List Vouch) :
    ∀ (rep : ReputationState),
      rep.p2pLendingContractAddress = lendingAddr →
      (∀ v ∈ l, rep.activeVouches v.voucher borrower = v) →
      (∀ v ∈ l, (rep.userReputations v.voucher).userAddress ≠ 0) →
      (∀ v ∈ l, slashAmountFor v.stakedAmount ≤
        (rep.userReputations v.voucher).vouchingStakeAmount) →
      l.Pairwise (fun u w => u.voucher ≠ w.voucher) →
      ∃ rep' tr,
        slashLoop registry lendingAddr borrower lender rep l = .ok (rep', tr) := by
  induction l with
  | nil => intro rep _ _ _ _ _; exact ⟨rep, [], rfl⟩
  | cons v rest ih =>
    intro rep hauth hcell hinit hagg hpw
    have hvmem : v ∈ v :: rest := List.mem_cons_self v rest
    rw [List.pairwise_cons] at hpw
    by_cases hcase : (v.isActive ∧ v.stakedAmount > 0 : Prop)
    · obtain ⟨rep', tr, hok, hframeA, hframeP, hauth', _, _⟩ :=
        slashVouch_ok_frame registry rep lendingAddr v.voucher borrower
          (slashAmountFor v.stakedAmount) lender hauth.symm
          (by rw [hcell v hvmem]; exact hcase.1)
          (by rw [hcell v hvmem]; exact slashAmountFor_le _)
          (slashAmountFor_pos _ hcase.2) (hinit v hvmem) (hagg v hvmem)
      obtain ⟨rep'', tr'', hloop⟩ := ih rep' (by rw [hauth', hauth])
        (fun w hw => by
          rw [hframeA w.voucher borrower (Ne.symm (hpw.1 w hw)), hcell w (List.mem_cons_of_mem v hw)])
        (fun w hw => by
          rw [hframeP w.voucher (Ne.symm (hpw.1 w hw))]
          exact hinit w (List.mem_cons_of_mem v hw))
        (fun w hw => by
          rw [hframeP w.voucher (Ne.symm (hpw.1 w hw))]
          exact hagg w (List.mem_cons_of_mem v hw))
        hpw.2
      refine ⟨rep'', tr ++ tr'', ?_⟩
      simp only [slashLoop, slashOne]
      rw [if_pos hcase, if_pos (slashAmountFor_pos _ hcase.2), hok]
      simp only [hloop]
    · obtain ⟨rep'', tr'', hloop⟩ := ih rep hauth
        (fun w hw => hcell w (List.mem_cons_of_mem v hw))
        (fun w hw => hinit w (List.mem_cons_of_mem v hw))
        (fun w hw => hagg w (List.mem_cons_of_mem v hw))
        hpw.2
      refine ⟨rep'', [] ++ tr'', ?_⟩
      simp only [slashLoop, slashOne]
      rw [if_neg hcase]
      simp only [hloop]

/-- Success, frame and snapshot-preservation lemma for
`updateReputationOnLoanDefault` called by the configured authority. -/
theorem updateDefault_ok (registry : Nat → Bool) (rep : ReputationState)
    (sender b : Nat) (hsender : sender = rep.p2pLendingContractAddress) :
    ∃ rep1,
      updateReputationOnLoanDefault registry rep sender b = .ok rep1 ∧
      rep1.activeVouches = rep.activeVouches ∧
      rep1.userVouchesReceived = rep.userVouchesReceived ∧
      rep1.p2pLendingContractAddress = rep.p2pLendingContractAddress ∧
      rep1.selfAddr = rep.selfAddr ∧
      (∀ x, (rep.userReputations x).userAddress ≠ 0 →
        (rep1.userReputations x).userAddress ≠ 0 ∧
        (rep1.userReputations x).vouchingStakeAmount =
          (rep.userReputations x).vouchingStakeAmount) := by
  unfold updateReputationOnLoanDefault
  rw [if_neg (by simp [hsender])]
  refine ⟨_, rfl, ?_, ?_, ?_, ?_, ?_⟩
  · simp [updProfile, initializeReputationProfileIfNotExists]
    split <;> rfl
  · simp [updProfile, initializeReputationProfileIfNotExists]
    split <;> rfl
  · simp [updProfile, initializeReputationProfileIfNotExists]
    split <;> rfl
  · simp [updProfile, initializeReputationProfileIfNotExists]
    split <;> rfl
  · intro x hx
    by_cases hxb : x = b
    · subst hxb
      rw [initProfile_of_ne_zero registry rep _ hx]
      simp [updProfile, upd]
      exact hx
    · simp [updProfile, upd, hxb, initializeReputationProfileIfNotExists]
      split
      · simp [upd, hxb]
        exact hx
      · exact ⟨hx, rfl⟩

/-- `getActiveVouchesForBorrower` only depends on the vouch maps. -/
theorem getActiveVouchesForBorrower_congr (s1 s2 : ReputationState) (b : Nat)
    (h1 : s1.activeVouches = s2.activeVouches)
    (h2 : s1.userVouchesReceived = s2.userVouchesReceived) :
    getActiveVouchesForBorrower s1 b = getActiveVouchesForBorrower s2 b := by
  simp [getActiveVouchesForBorrower, h1, h2]

/-- Claim C1 (amended): `handleP2PDefault` requires the agreement status to be
exactly `Active`: with `now > due_date` and `amount_paid < total_due` it
succeeds from `Active` (transitioning the agreement to `Defaulted`, given the
wired authority and a well-formed vouch snapshot), but from `Overdue` it
always reverts with "P2PL: Loan not active for default". -/
theorem c1_handleDefault_active_only (registry : Nat → Bool) (s : LendingState)
    (sender now agreementId : Nat)
    (hl : (s.loanAgreements agreementId).lender ≠ 0) :
    ((s.loanAgreements agreementId).status = LoanStatus.Overdue →
      handleP2PDefault registry s sender now agreementId =
        .error "P2PL: Loan not active for default") ∧
    ((s.loanAgreements agreementId).status = LoanStatus.Active →
     (s.loanAgreements agreementId).dueDate < now →
     (s.loanAgreements agreementId).amountPaid <
       _calculateTotalDue (s.loanAgreements agreementId) →
     s.reputation.p2pLendingContractAddress = s.selfAddr →
     (∀ v ∈ getActiveVouchesForBorrower s.reputation
          (s.loanAgreements agreementId).borrower,
        v.borrower = (s.loanAgreements agreementId).borrower ∧
        s.reputation.activeVouches v.voucher v.borrower = v ∧
        (s.reputation.userReputations v.voucher).userAddress ≠ 0 ∧
        slashAmountFor v.stakedAmount ≤
          (s.reputation.userReputations v.voucher).vouchingStakeAmount) →
     (getActiveVouchesForBorrower s.reputation
        (s.loanAgreements agreementId).borrower).Pairwise
       (fun u w => u.voucher ≠ w.voucher) →
     ∃ s' tr, handleP2PDefault registry s sender now agreementId = .ok (s', tr) ∧
       (s'.loanAgreements agreementId).status = LoanStatus.Defaulted) := by
  constructor
  · intro hstat
    unfold handleP2PDefault
    rw [if_neg hl, if_pos (by simp [hstat])]
  · intro hstat hdue hpaid hwire hsnap hpw
    obtain ⟨rep1, hok1, hA, hR, hP, hS, hProf⟩ :=
      updateDefault_ok registry s.reputation s.selfAddr
        (s.loanAgreements agreementId).borrower hwire.symm
    have hsnapeq : getActiveVouchesForBorrower rep1
        (s.loanAgreements agreementId).borrower =
        getActiveVouchesForBorrower s.reputation
          (s.loanAgreements agreementId).borrower :=
      getActiveVouchesForBorrower_congr _ _ _ hA hR
    obtain ⟨rep2, tr2, hloop⟩ :=
      slashLoop_ok registry s.selfAddr (s.loanAgreements agreementId).borrower
        (s.loanAgreements agreementId).lender
        (getActiveVouchesForBorrower rep1 (s.loanAgreements agreementId).borrower)
        rep1 (by rw [hP, hwire])
        (fun v hv => by
          rw [hsnapeq] at hv
          have h := hsnap v hv
          rw [hA, ← h.1]
          exact h.2.1)
        (fun v hv => by
          rw [hsnapeq] at hv
          exact (hProf v.voucher (hsnap v hv).2.2.1).1)
        (fun v hv => by
          rw [hsnapeq] at hv
          rw [(hProf v.voucher (hsnap v hv).2.2.1).2]
          exact (hsnap v hv).2.2.2)
        (by rw [hsnapeq]; exact hpw)
    simp only [handleP2PDefault, hl, hstat, hok1, hloop, if_false, ite_false,
      not_true, not_false_iff, eq_self_iff_true, hdue, hpaid, gt_iff_lt, not_lt,
      ite_true, if_true, not_le]
    exact ⟨_, _, rfl, by simp [upd]⟩

/-- Witness for C1 at concrete states: from `Active` with one vouch,
`handleP2PDefault` succeeds and defaults the agreement; from `Overdue` it
reverts. -/
theorem c1_handleDefault_active_only_witness :
    (∃ s' tr, handleP2PDefault regAll singleVouchState 9 25 200 = .ok (s', tr) ∧
      (s'.loanAgreements 200).status = LoanStatus.Defaulted) ∧
    handleP2PDefault regAll overdueState 9 26 200 =
      .error "P2PL: Loan not active for default" :=
  ⟨(c1_handleDefault_active_only regAll singleVouchState 9 25 200 (by decide)).2
      (by decide) (by decide) (by decide) (by decide) (by decide) (by decide),
   (c1_handleDefault_active_only regAll overdueState 9 26 200 (by decide)).1
      (by decide)⟩

/-- `createLoanOffer` does not touch the agreements map. -/
theorem createLoanOffer_agreements {registry : Nat → Bool} {balances : Nat → Nat → Nat}
    {s s' : LendingState} {tr : List TokenTransfer}
    {sender now offerId amount token rate dur reqColl collTok : Nat}
    (h : createLoanOffer registry balances s sender now offerId
      amount token rate dur reqColl collTok = .ok (s', tr)) :
    s'.loanAgreements = s.loanAgreements := by
  simp only [createLoanOffer] at h
  split_ifs at h <;> try exact Except.noConfusion h
  injection h with h1
  injection h1 with ha hl
  subst ha
  rfl

/-- `createLoanRequest` does not touch the agreements map. -/
theorem createLoanRequest_agreements {registry : Nat → Bool} {balances : Nat → Nat → Nat}
    {s s' : LendingState} {tr : List TokenTransfer}
    {sender now requestId amount token rate dur offColl collTok : Nat}
    (h : createLoanRequest registry balances s sender now requestId
      amount token rate dur offColl collTok = .ok (s', tr)) :
    s'.loanAgreements = s.loanAgreements := by
  simp only [createLoanRequest] at h
  split_ifs at h <;> try exact Except.noConfusion h
  injection h with h1
  injection h1 with ha hl
  subst ha
  rfl

set_option maxHeartbeats 2000000 in
/-- On success `acceptLoanOffer` writes exactly one fresh `Active` agreement
with `amountPaid = 0` and an unapproved modification snapshot. -/
theorem acceptLoanOffer_char {registry : Nat → Bool} {balances : Nat → Nat → Nat}
    {s s' : LendingState} {tr : List TokenTransfer}
    {sender now offerId collAmt collTok newAgreementId : Nat}
    (h : acceptLoanOffer registry balances s sender now offerId collAmt collTok
      newAgreementId = .ok (s', tr)) :
    ∃ A, s'.loanAgreements = upd s.loanAgreements newAgreementId A ∧
      A.amountPaid = 0 ∧ A.status = LoanStatus.Active ∧
      A.modificationApprovedByLender = false := by
  dsimp only [acceptLoanOffer] at h
  by_cases c1 : ¬registry sender = true
  · rw [if_pos c1] at h; exact Except.noConfusion h
  rw [if_neg c1] at h
  by_cases c2 : (s.loanOffers offerId).lender = 0
  · rw [if_pos c2] at h; exact Except.noConfusion h
  rw [if_neg c2] at h
  by_cases c3 : ¬(s.loanOffers offerId).isActive = true
  · rw [if_pos c3] at h; exact Except.noConfusion h
  rw [if_neg c3] at h
  by_cases c4 : (s.loanOffers offerId).isFulfilled = true
  · rw [if_pos c4] at h; exact Except.noConfusion h
  rw [if_neg c4] at h
  by_cases c5 : (s.loanOffers offerId).lender = sender
  · rw [if_pos c5] at h; exact Except.noConfusion h
  rw [if_neg c5] at h
  by_cases c6 : (s.loanOffers offerId).requiredCollateralAmount > 0 ∧
      collTok ≠ (s.loanOffers offerId).collateralToken
  · rw [if_pos c6] at h; exact Except.noConfusion h
  rw [if_neg c6] at h
  by_cases c7 : (s.loanOffers offerId).requiredCollateralAmount > 0 ∧
      collAmt ≠ (s.loanOffers offerId).requiredCollateralAmount
  · rw [if_pos c7] at h; exact Except.noConfusion h
  rw [if_neg c7] at h
  by_cases c8 : (s.loanOffers offerId).requiredCollateralAmount > 0 ∧
      balances collTok sender < collAmt
  · rw [if_pos c8] at h; exact Except.noConfusion h
  rw [if_neg c8] at h
  by_cases c9 : ¬(s.loanOffers offerId).requiredCollateralAmount > 0 ∧ collAmt ≠ 0
  · rw [if_pos c9] at h; exact Except.noConfusion h
  rw [if_neg c9] at h
  by_cases c10 : ¬(s.loanOffers offerId).requiredCollateralAmount > 0 ∧ collTok ≠ 0
  · rw [if_pos c10] at h; exact Except.noConfusion h
  rw [if_neg c10] at h
  injection h with h1
  injection h1 with ha hl
  subst ha
  exact ⟨_, rfl, rfl, rfl, rfl⟩

set_option maxHeartbeats 2000000 in
/-- On success `fundLoanRequest` writes exactly one fresh `Active` agreement
with `amountPaid = 0` and an unapproved modification snapshot. -/
theorem fundLoanRequest_char {registry : Nat → Bool} {balances : Nat → Nat → Nat}
    {s s' : LendingState} {tr : List TokenTransfer}
    {sender now requestId newAgreementId : Nat}
    (h : fundLoanRequest registry balances s sender now requestId newAgreementId
      = .ok (s', tr)) :
    ∃ A, s'.loanAgreements = upd s.loanAgreements newAgreementId A ∧
      A.amountPaid = 0 ∧ A.status = LoanStatus.Active ∧
      A.modificationApprovedByLender = false := by
  dsimp only [fundLoanRequest] at h
  by_cases c1 : ¬registry sender = true
  · rw [if_pos c1] at h; exact Except.noConfusion h
  rw [if_neg c1] at h
  by_cases c2 : (s.loanRequests requestId).borrower = 0
  · rw [if_pos c2] at h; exact Except.noConfusion h
  rw [if_neg c2] at h
  by_cases c3 : ¬(s.loanRequests requestId).isActive = true
  · rw [if_pos c3] at h; exact Except.noConfusion h
  rw [if_neg c3] at h
  by_cases c4 : (s.loanRequests requestId).isFulfilled = true
  · rw [if_pos c4] at h; exact Except.noConfusion h
  rw [if_neg c4] at h
  by_cases c5 : (s.loanRequests requestId).borrower = sender
  · rw [if_pos c5] at h; exact Except.noConfusion h
  rw [if_neg c5] at h
  by_cases c6 : balances (s.loanRequests requestId).token sender <
      (s.loanRequests requestId).amount
  · rw [if_pos c6] at h; exact Except.noConfusion h
  rw [if_neg c6] at h
  injection h with h1
  injection h1 with ha hl
  subst ha
  exact ⟨_, rfl, rfl, rfl, rfl⟩

/-- On success `requestPaymentModification` rewrites exactly the targeted
agreement, after validating the modification value. -/
theorem requestPaymentModification_char {s s' : LendingState} {tr : List TokenTransfer}
    {sender now agreementId : Nat} {mt : PaymentModificationType} {value : Nat}
    (h : requestPaymentModification s sender now agreementId mt value = .ok (s', tr)) :
    s'.loanAgreements = upd s.loanAgreements agreementId
      { s.loanAgreements agreementId with
          requestedModificationType := mt,
          requestedModificationValue := value,
          modificationApprovedByLender := false,
          status := LoanStatus.PendingModificationApproval } ∧
    0 < value ∧
    (mt = PaymentModificationType.DueDateExtension →
      (s.loanAgreements agreementId).dueDate < value) ∧
    ((s.loanAgreements agreementId).status = LoanStatus.Active ∨
      (s.loanAgreements agreementId).status = LoanStatus.Overdue) := by
  simp only [requestPaymentModification] at h
  split_ifs at h with h1 h2 h3 h4 <;> try exact Except.noConfusion h
  injection h with hinj
  injection hinj with ha hl
  subst ha
  refine ⟨rfl, by omega, fun hmt => ?_, by tauto⟩
  rcases not_and_or.mp h4 with hc | hc
  · exact absurd hmt hc
  · omega

/-- On success `respondToPaymentModification` rewrites exactly the targeted
(pending) agreement; the resulting fields follow the four response branches. -/
theorem respondToPaymentModification_char {s s' : LendingState} {tr : List TokenTransfer}
    {sender now agreementId : Nat} {approved : Bool}
    (h : respondToPaymentModification s sender now agreementId approved = .ok (s', tr)) :
    (s.loanAgreements agreementId).status = LoanStatus.PendingModificationApproval ∧
    ∃ A, s'.loanAgreements = upd s.loanAgreements agreementId A ∧
      A.amountPaid = (s.loanAgreements agreementId).amountPaid ∧
      A.principalAmount = (s.loanAgreements agreementId).principalAmount ∧
      A.interestRateBPS = (s.loanAgreements agreementId).interestRateBPS ∧
      A.requestedModificationType =
        (s.loanAgreements agreementId).requestedModificationType ∧
      A.requestedModificationValue =
        (s.loanAgreements agreementId).requestedModificationValue ∧
      ((approved = true ∧
          (s.loanAgreements agreementId).requestedModificationType =
            PaymentModificationType.DueDateExtension ∧
          A.dueDate = (s.loanAgreements agreementId).requestedModificationValue ∧
          A.modificationApprovedByLender = true ∧
          (A.status = LoanStatus.Active ∨ A.status = LoanStatus.Overdue)) ∨
       (approved = true ∧
          (s.loanAgreements agreementId).requestedModificationType =
            PaymentModificationType.PartialPaymentAgreement ∧
          A.dueDate = (s.loanAgreements agreementId).dueDate ∧
          A.modificationApprovedByLender = true ∧
          A.status = LoanStatus.Active_PartialPaymentAgreed) ∨
       (approved = true ∧
          (s.loanAgreements agreementId).requestedModificationType =
            PaymentModificationType.None ∧
          A.dueDate = (s.loanAgreements agreementId).dueDate ∧
          A.modificationApprovedByLender = true ∧
          A.status = LoanStatus.PendingModificationApproval) ∨
       (approved = false ∧
          A.dueDate = (s.loanAgreements agreementId).dueDate ∧
          A.modificationApprovedByLender = false ∧
          (A.status = LoanStatus.Active ∨ A.status = LoanStatus.Overdue))) := by
  simp only [respondToPaymentModification] at h
  split_ifs at h with h1 h2 h3 h4 h5 h6 h7 <;> try exact Except.noConfusion h
  all_goals injection h with hinj
  all_goals injection hinj with ha hl
  all_goals subst ha
  all_goals refine ⟨by simpa using h2, _, rfl, rfl, rfl, rfl, rfl, rfl, ?_⟩
  all_goals simp_all
  cases hmt : (s.loanAgreements agreementId).requestedModificationType <;> simp_all

/-- On success `repayLoan` was called by the borrower on a repayable
agreement with a positive payment bounded by the remaining due, and rewrites
exactly the targeted agreement: `amountPaid` grows by the payment, principal,
rate and modification type are unchanged, the new status is never
`PendingModificationApproval`, and the approval flag is either cleared (the
met-partial-payment branch) or unchanged. -/
theorem repayLoan_char {registry : Nat → Bool} {s s' : LendingState}
    {tr : List TokenTransfer} {sender now agreementId payment : Nat}
    (h : repayLoan registry s sender now agreementId payment = .ok (s', tr)) :
    ((s.loanAgreements agreementId).status = LoanStatus.Active ∨
      (s.loanAgreements agreementId).status = LoanStatus.Overdue ∨
      (s.loanAgreements agreementId).status = LoanStatus.Active_PartialPaymentAgreed) ∧
    0 < payment ∧
    (s.loanAgreements agreementId).amountPaid ≤
      _calculateTotalDue (s.loanAgreements agreementId) ∧
    payment ≤ _calculateTotalDue (s.loanAgreements agreementId) -
      (s.loanAgreements agreementId).amountPaid ∧
    ∃ A, s'.loanAgreements = upd s.loanAgreements agreementId A ∧
      A.amountPaid = (s.loanAgreements agreementId).amountPaid + payment ∧
      A.principalAmount = (s.loanAgreements agreementId).principalAmount ∧
      A.interestRateBPS = (s.loanAgreements agreementId).interestRateBPS ∧
      A.requestedModificationType =
        (s.loanAgreements agreementId).requestedModificationType ∧
      A.status ≠ LoanStatus.PendingModificationApproval ∧
      (A.modificationApprovedByLender = false ∨
        A.modificationApprovedByLender =
          (s.loanAgreements agreementId).modificationApprovedByLender) := by
  dsimp only [repayLoan] at h
  by_cases c1 : (s.loanAgreements agreementId).borrower ≠ sender
  · rw [if_pos c1] at h; exact Except.noConfusion h
  rw [if_neg c1] at h
  by_cases c2 : ¬((s.loanAgreements agreementId).status = LoanStatus.Active ∨
      (s.loanAgreements agreementId).status = LoanStatus.Overdue ∨
      (s.loanAgreements agreementId).status = LoanStatus.Active_PartialPaymentAgreed)
  · rw [if_pos c2] at h; exact Except.noConfusion h
  rw [if_neg c2] at h
  by_cases c3 : ¬payment > 0
  · rw [if_pos c3] at h; exact Except.noConfusion h
  rw [if_neg c3] at h
  by_cases c4 : _calculateTotalDue (s.loanAgreements agreementId) <
      (s.loanAgreements agreementId).amountPaid
  · rw [if_pos c4] at h; exact Except.noConfusion h
  rw [if_neg c4] at h
  by_cases c5 : ¬payment ≤ _calculateTotalDue (s.loanAgreements agreementId) -
      (s.loanAgreements agreementId).amountPaid
  · rw [if_pos c5] at h; exact Except.noConfusion h
  rw [if_neg c5] at h
  refine ⟨by tauto, by omega, by omega, by omega, ?_⟩
  by_cases cA : (s.loanAgreements agreementId).status =
      LoanStatus.Active_PartialPaymentAgreed
  · rw [if_pos cA] at h
    by_cases cM : payment = (s.loanAgreements agreementId).requestedModificationValue
    · rw [if_pos cM] at h
      dsimp only at h
      by_cases cG : (s.loanAgreements agreementId).amountPaid + payment ≥
          _calculateTotalDue (s.loanAgreements agreementId)
      · rw [if_pos cG] at h
        rw [if_pos rfl] at h
        cases hrec : recordLoanPaymentOutcome registry s.reputation s.selfAddr
            agreementId (s.loanAgreements agreementId).borrower
            (s.loanAgreements agreementId).lender
            (s.loanAgreements agreementId).principalAmount
            (codeOutcomeClassifier now (s.loanAgreements agreementId).dueDate
              (s.loanAgreements agreementId).modificationApprovedByLender
              (s.loanAgreements agreementId).requestedModificationType)
            (s.loanAgreements agreementId).requestedModificationType
            (s.loanAgreements agreementId).modificationApprovedByLender with
        | error e => rw [hrec] at h; exact Except.noConfusion h
        | ok rep' =>
          rw [hrec] at h
          injection h with h1
          injection h1 with ha hl
          subst ha
          exact ⟨_, rfl, rfl, rfl, rfl, rfl, by simp, Or.inl rfl⟩
      · rw [if_neg cG] at h
        by_cases cO : now > (s.loanAgreements agreementId).dueDate
        · rw [if_pos cO, if_neg (by simp)] at h
          injection h with h1
          injection h1 with ha hl
          subst ha
          exact ⟨_, rfl, rfl, rfl, rfl, rfl, by simp, Or.inl rfl⟩
        · rw [if_neg cO, if_neg (by simp)] at h
          injection h with h1
          injection h1 with ha hl
          subst ha
          exact ⟨_, rfl, rfl, rfl, rfl, rfl, by simp, Or.inl rfl⟩
    · rw [if_neg cM] at h
      dsimp only at h
      rw [if_neg (by simp)] at h
      injection h with h1
      injection h1 with ha hl
      subst ha
      exact ⟨_, rfl, rfl, rfl, rfl, rfl, by simp, Or.inr rfl⟩
  · rw [if_neg cA] at h
    dsimp only at h
    by_cases cG : (s.loanAgreements agreementId).amountPaid + payment ≥
        _calculateTotalDue (s.loanAgreements agreementId)
    · rw [if_pos cG] at h
      rw [if_pos rfl] at h
      cases hrec : recordLoanPaymentOutcome registry s.reputation s.selfAddr
          agreementId (s.loanAgreements agreementId).borrower
          (s.loanAgreements agreementId).lender
          (s.loanAgreements agreementId).principalAmount
          (codeOutcomeClassifier now (s.loanAgreements agreementId).dueDate
            (s.loanAgreements agreementId).modificationApprovedByLender
            (s.loanAgreements agreementId).requestedModificationType)
          (s.loanAgreements agreementId).requestedModificationType
          (s.loanAgreements agreementId).modificationApprovedByLender with
      | error e => rw [hrec] at h; exact Except.noConfusion h
      | ok rep' =>
        rw [hrec] at h
        injection h with h1
        injection h1 with ha hl
        subst ha
        exact ⟨_, rfl, rfl, rfl, rfl, rfl, by simp, Or.inr rfl⟩
    · rw [if_neg cG] at h
      by_cases cO : now > (s.loanAgreements agreementId).dueDate
      · rw [if_pos cO, if_neg (by simp)] at h
        injection h with h1
        injection h1 with ha hl
        subst ha
        exact ⟨_, rfl, rfl, rfl, rfl, rfl, by simp, Or.inr rfl⟩
      · rw [if_neg cO, if_neg (by simp)] at h
        injection h with h1
        injection h1 with ha hl
        subst ha
        exact ⟨_, rfl, rfl, rfl, rfl, rfl, by simp, Or.inr rfl⟩

/-- On success `handleP2PDefault` rewrites exactly the targeted agreement,
setting its status to `Defaulted` and leaving every other field unchanged. -/
theorem handleP2PDefault_char {registry : Nat → Bool} {s s' : LendingState}
    {tr : List TokenTransfer} {sender now agreementId : Nat}
    (h : handleP2PDefault registry s sender now agreementId = .ok (s', tr)) :
    s'.loanAgreements = upd s.loanAgreements agreementId
      ({ s.loanAgreements agreementId with status := LoanStatus.Defaulted }) := by
  dsimp only [handleP2PDefault] at h
  by_cases c1 : (s.loanAgreements agreementId).lender = 0
  · rw [if_pos c1] at h; exact Except.noConfusion h
  rw [if_neg c1] at h
  by_cases c2 : (s.loanAgreements agreementId).status ≠ LoanStatus.Active
  · rw [if_pos c2] at h; exact Except.noConfusion h
  rw [if_neg c2] at h
  by_cases c3 : ¬now > (s.loanAgreements agreementId).dueDate
  · rw [if_pos c3] at h; exact Except.noConfusion h
  rw [if_neg c3] at h
  by_cases c4 : ¬(s.loanAgreements agreementId).amountPaid <
      _calculateTotalDue (s.loanAgreements agreementId)
  · rw [if_pos c4] at h; exact Except.noConfusion h
  rw [if_neg c4] at h
  cases hrec : updateReputationOnLoanDefault registry s.reputation s.selfAddr
      (s.loanAgreements agreementId).borrower with
  | error e => rw [hrec] at h; exact Except.noConfusion h
  | ok rep1 =>
    rw [hrec] at h
    dsimp only at h
    cases hsl : slashLoop registry s.selfAddr (s.loanAgreements agreementId).borrower
        (s.loanAgreements agreementId).lender rep1
        (getActiveVouchesForBorrower rep1 (s.loanAgreements agreementId).borrower) with
    | error e => rw [hsl] at h; exact Except.noConfusion h
    | ok p =>
      rw [hsl] at h
      dsimp only at h
      injection h with h1
      injection h1 with ha hl
      subst ha
      rfl

/-- `_calculateTotalDue` only reads the principal and the rate. -/
theorem totalDue_congr {A B : LoanAgreement}
    (h1 : A.principalAmount = B.principalAmount)
    (h2 : A.interestRateBPS = B.interestRateBPS) :
    _calculateTotalDue A = _calculateTotalDue B := by
  simp [_calculateTotalDue, _calculateInterest, h1, h2]

/-- The zero agreement of an empty mapping slot satisfies the invariant. -/
theorem agreementInv_zero : AgreementInv zeroAgreement := by
  refine ⟨by decide, by decide, by decide⟩

/-- Every successful transaction preserves the per-agreement invariant. -/
theorem stateInv_preserved (k : StepKind) (s s' : LendingState)
    (hstep : LStep k s s') (hs : StateInv s) : StateInv s' := by
  cases hstep with
  | createOffer registry balances s s' tr sender now offerId amount token rate dur
      reqColl collTok hsender h =>
    intro id; rw [createLoanOffer_agreements h]; exact hs id
  | createRequest registry balances s s' tr sender now requestId amount token rate dur
      offColl collTok hsender h =>
    intro id; rw [createLoanRequest_agreements h]; exact hs id
  | acceptOffer registry balances s s' tr sender now offerId collAmt collTok
      newAgreementId hsender h =>
    obtain ⟨A, hAg, h0, hAct, hApp⟩ := acceptLoanOffer_char h
    intro id
    rw [hAg]
    by_cases hid : id = newAgreementId
    · rw [hid, upd_same]
      refine ⟨by rw [h0]; exact Nat.zero_le _, ?_, ?_⟩
      · intro hp; rw [hAct] at hp; exact absurd hp (by simp)
      · intro _ happ; rw [hApp] at happ; exact absurd happ (by simp)
    · rw [upd_other _ _ _ _ hid]; exact hs id
  | fundRequest registry balances s s' tr sender now requestId newAgreementId
      hsender h =>
    obtain ⟨A, hAg, h0, hAct, hApp⟩ := fundLoanRequest_char h
    intro id
    rw [hAg]
    by_cases hid : id = newAgreementId
    · rw [hid, upd_same]
      refine ⟨by rw [h0]; exact Nat.zero_le _, ?_, ?_⟩
      · intro hp; rw [hAct] at hp; exact absurd hp (by simp)
      · intro _ happ; rw [hApp] at happ; exact absurd happ (by simp)
    · rw [upd_other _ _ _ _ hid]; exact hs id
  | repay registry s s' tr sender now agreementId paymentAmount hsender h =>
    obtain ⟨hrep, hpos, hle, hrem, A, hAg, hPaid, hPrin, hRate, hType, hStat, hApp⟩ :=
      repayLoan_char h
    intro id
    rw [hAg]
    by_cases hid : id = agreementId
    · rw [hid, upd_same]
      refine ⟨?_, ?_, ?_⟩
      · rw [hPaid, totalDue_congr hPrin hRate]; omega
      · intro hp; exact absurd hp hStat
      · intro _ happ
        rcases hApp with hf | he
        · rw [hf] at happ; exact absurd happ (by simp)
        · rw [hType]
          exact (hs agreementId).2.2 hrep (he ▸ happ)
    · rw [upd_other _ _ _ _ hid]; exact hs id
  | handleDefault registry s s' tr sender now agreementId hsender h =>
    intro id
    rw [handleP2PDefault_char h]
    by_cases hid : id = agreementId
    · rw [hid, upd_same]
      refine ⟨(hs agreementId).1, ?_, ?_⟩
      · intro hp; exact absurd hp (by simp)
      · intro hp; exact absurd hp (by simp)
    · rw [upd_other _ _ _ _ hid]; exact hs id
  | requestMod s s' tr sender now agreementId modificationType value hsender h =>
    obtain ⟨hAg, hv, hext, hrep⟩ := requestPaymentModification_char h
    intro id
    rw [hAg]
    by_cases hid : id = agreementId
    · rw [hid, upd_same]
      refine ⟨(hs agreementId).1, ?_, ?_⟩
      · intro _ hmt
        exact hext hmt
      · intro hp _
        rcases hp with hp | hp | hp <;> exact absurd hp (by simp)
    · rw [upd_other _ _ _ _ hid]; exact hs id
  | respondMod s s' tr sender now agreementId approved hsender h =>
    obtain ⟨hpend, A, hAg, hPaid, hPrin, hRate, hType, hValue, hbr⟩ :=
      respondToPaymentModification_char h
    intro id
    rw [hAg]
    by_cases hid : id = agreementId
    · rw [hid, upd_same]
      refine ⟨?_, ?_, ?_⟩
      · rw [hPaid, totalDue_congr hPrin hRate]; exact (hs agreementId).1
      · intro hp hmt
        rcases hbr with ⟨-, -, -, -, hst⟩ | ⟨-, -, -, -, hst⟩ | ⟨-, hN, -, -, hst⟩ |
          ⟨-, -, -, hst⟩
        · rcases hst with hst | hst <;> (rw [hst] at hp; exact absurd hp (by simp))
        · rw [hst] at hp; exact absurd hp (by simp)
        · rw [hType, hN] at hmt; exact absurd hmt (by simp)
        · rcases hst with hst | hst <;> (rw [hst] at hp; exact absurd hp (by simp))
      · intro hp happ
        rcases hbr with ⟨-, hN, -, -, hst⟩ | ⟨-, hN, -, -, hst⟩ | ⟨-, hN, -, -, hst⟩ |
          ⟨-, -, hap, hst⟩
        · rw [hType, hN]; simp
        · rw [hType, hN]; simp
        · rcases hp with hp | hp | hp <;> (rw [hst] at hp; exact absurd hp (by simp))
        · rw [hap] at happ; exact absurd happ (by simp)
    · rw [upd_other _ _ _ _ hid]; exact hs id
  | addVouchOp registry s rep' tr sender borrower amount token hsender h =>
    exact hs
  | removeVouchOp registry s rep' tr sender borrower hsender h =>
    exact hs
  | recordOutcomeOp registry s rep' sender agreementId borrower lender principal
      outcome modType lenderApproved hsender h =>
    exact hs
  | recordDefaultOp registry s rep' sender borrower hsender h =>
    exact hs
  | slashVouchOp registry s rep' tr sender voucher borrower amount payee hsender h =>
    exact hs
  | setLendingAddrOp s rep' newAddr h =>
    exact hs

/-- Every reachable state satisfies the per-agreement invariant. -/
theorem reachable_stateInv (s : LendingState) (h : Reachable s) : StateInv s := by
  induction h with
  | init selfAddr repAddr => exact fun id => agreementInv_zero
  | step k s s' _ hstep ih => exact stateInv_preserved k s s' hstep ih

/-- The wired deployment is reachable (deploy, then set the authority). -/
theorem reachable_wired : Reachable wired :=
  Reachable.step StepKind.setLendingAddrOp (LendingState.init 7 8) wired
    (Reachable.init 7 8)
    (LStep.setLendingAddrOp (LendingState.init 7 8) wired.reputation 7 rfl)

theorem reachable_smallOfferState : Reachable smallOfferState :=
  Reachable.step StepKind.createOffer wired smallOfferState reachable_wired
    (LStep.createOffer regAll balAll wired smallOfferState [⟨5, 1, 7, 1000⟩]
      1 10 100 1000 5 1000 10 0 0 (by decide) rfl)

theorem reachable_smallAcceptedState : Reachable smallAcceptedState :=
  Reachable.step StepKind.acceptOffer smallOfferState smallAcceptedState
    reachable_smallOfferState
    (LStep.acceptOffer regAll balAll smallOfferState smallAcceptedState
      [⟨5, 7, 2, 1000⟩] 2 10 100 0 0 200 (by decide) rfl)

theorem reachable_pendingExtState : Reachable pendingExtState :=
  Reachable.step StepKind.requestMod smallAcceptedState pendingExtState
    reachable_smallAcceptedState
    (LStep.requestMod smallAcceptedState pendingExtState [] 2 12 200
      PaymentModificationType.DueDateExtension 30 (by decide) rfl)

theorem reachable_bigOfferState : Reachable bigOfferState :=
  Reachable.step StepKind.createOffer wired bigOfferState reachable_wired
    (LStep.createOffer regAll balAll wired bigOfferState [⟨5, 1, 7, 100 * 10 ^ 18⟩]
      1 1000 100 (100 * 10 ^ 18) 5 1000 864000 0 0 (by decide) (by rfl))

theorem reachable_bigAcceptedState : Reachable bigAcceptedState :=
  Reachable.step StepKind.acceptOffer bigOfferState bigAcceptedState
    reachable_bigOfferState
    (LStep.acceptOffer regAll balAll bigOfferState bigAcceptedState
      [⟨5, 7, 2, 100 * 10 ^ 18⟩] 2 1000 100 0 0 200 (by decide) (by rfl))

/-- Claim C7: in every reachable committed state every agreement satisfies
`amount_paid ≤ total_due`, where `total_due = principal + principal * rate /
10_000` with truncating division; `repayLoan` rejects a zero payment and any
payment exceeding `total_due − amount_paid`; and no operation other than
repay increases any agreement's `amount_paid`. -/
theorem c7_amount_paid_le_total_due :
    (∀ a : LoanAgreement, _calculateTotalDue a =
      a.principalAmount + a.principalAmount * a.interestRateBPS / 10000) ∧
    (∀ s, Reachable s → ∀ id,
      (s.loanAgreements id).amountPaid ≤ _calculateTotalDue (s.loanAgreements id)) ∧
    (∀ (registry : Nat → Bool) (s : LendingState) (sender now agreementId : Nat)
       (r : LendingState × List TokenTransfer),
      repayLoan registry s sender now agreementId 0 ≠ .ok r) ∧
    (∀ (registry : Nat → Bool) (s : LendingState)
       (sender now agreementId payment : Nat) (r : LendingState × List TokenTransfer),
      _calculateTotalDue (s.loanAgreements agreementId) -
        (s.loanAgreements agreementId).amountPaid < payment →
      repayLoan registry s sender now agreementId payment ≠ .ok r) ∧
    (∀ (k : StepKind) (s s' : LendingState), LStep k s s' → k ≠ StepKind.repay →
      ∀ id, (s'.loanAgreements id).amountPaid ≤ (s.loanAgreements id).amountPaid) := by
  refine ⟨?_, ?_, ?_, ?_, ?_⟩
  · intro a
    simp only [_calculateTotalDue, _calculateInterest, BASIS_POINTS]
    split_ifs with hc
    · rcases hc with hc | hc <;> simp [hc]
    · rfl
  · exact fun s hs id => (reachable_stateInv s hs id).1
  · intro registry s sender now agreementId r h
    obtain ⟨s', tr⟩ := r
    exact absurd (repayLoan_char h).2.1 (by omega)
  · intro registry s sender now agreementId payment r hover h
    obtain ⟨s', tr⟩ := r
    have := (repayLoan_char h).2.2.2.1
    omega
  · intro k s s' hstep hk id
    cases hstep with
    | createOffer registry balances s s' tr sender now offerId amount token rate dur
        reqColl collTok hsender h =>
      rw [createLoanOffer_agreements h]
    | createRequest registry balances s s' tr sender now requestId amount token rate
        dur offColl collTok hsender h =>
      rw [createLoanRequest_agreements h]
    | acceptOffer registry balances s s' tr sender now offerId collAmt collTok
        newAgreementId hsender h =>
      obtain ⟨A, hAg, h0, -, -⟩ := acceptLoanOffer_char h
      rw [hAg]
      by_cases hid : id = newAgreementId
      · rw [hid, upd_same, h0]; exact Nat.zero_le _
      · rw [upd_other _ _ _ _ hid]
    | fundRequest registry balances s s' tr sender now requestId newAgreementId
        hsender h =>
      obtain ⟨A, hAg, h0, -, -⟩ := fundLoanRequest_char h
      rw [hAg]
      by_cases hid : id = newAgreementId
      · rw [hid, upd_same, h0]; exact Nat.zero_le _
      · rw [upd_other _ _ _ _ hid]
    | repay registry s s' tr sender now agreementId paymentAmount hsender h =>
      exact absurd rfl hk
    | handleDefault registry s s' tr sender now agreementId hsender h =>
      rw [handleP2PDefault_char h]
      by_cases hid : id = agreementId
      · rw [hid, upd_same]
      · rw [upd_other _ _ _ _ hid]
    | requestMod s s' tr sender now agreementId modificationType value hsender h =>
      obtain ⟨hAg, -, -, -⟩ := requestPaymentModification_char h
      rw [hAg]
      by_cases hid : id = agreementId
      · rw [hid, upd_same]
      · rw [upd_other _ _ _ _ hid]
    | respondMod s s' tr sender now agreementId approved hsender h =>
      obtain ⟨-, A, hAg, hPaid, -, -, -, -, -⟩ := respondToPaymentModification_char h
      rw [hAg]
      by_cases hid : id = agreementId
      · rw [hid, upd_same, hPaid]
      · rw [upd_other _ _ _ _ hid]
    | addVouchOp registry s rep' tr sender borrower amount token hsender h =>
      exact Nat.le_refl _
    | removeVouchOp registry s rep' tr sender borrower hsender h =>
      exact Nat.le_refl _
    | recordOutcomeOp registry s rep' sender agreementId borrower lender principal
        outcome modType lenderApproved hsender h =>
      exact Nat.le_refl _
    | recordDefaultOp registry s rep' sender borrower hsender h =>
      exact Nat.le_refl _
    | slashVouchOp registry s rep' tr sender voucher borrower amount payee hsender h =>
      exact Nat.le_refl _
    | setLendingAddrOp s rep' newAddr h =>
      exact Nat.le_refl _

/-- Witness for C7 at concrete inputs: the invariant holds at the deployed
state, and a zero repayment on the concrete accepted loan is rejected. -/
theorem c7_amount_paid_le_total_due_witness :
    ((LendingState.init 7 8).loanAgreements 0).amountPaid ≤
      _calculateTotalDue ((LendingState.init 7 8).loanAgreements 0) ∧
    repayLoan regAll smallAcceptedState 2 15 200 0 ≠ .ok (smallAcceptedState, []) ∧
    repayLoan regAll smallAcceptedState 2 15 200 1101 ≠ .ok (smallAcceptedState, []) :=
  ⟨c7_amount_paid_le_total_due.2.1 (LendingState.init 7 8) (Reachable.init 7 8) 0,
   c7_amount_paid_le_total_due.2.2.1 regAll smallAcceptedState 2 15 200
     (smallAcceptedState, []),
   c7_amount_paid_le_total_due.2.2.2.1 regAll smallAcceptedState 2 15 200 1101
     (smallAcceptedState, []) (by decide)⟩

/-- Claim C9: an approved DueDateExtension strictly increases `due_date`:
`requestPaymentModification` with type DueDateExtension succeeds only with a
value strictly greater than the current due date (and does not change the due
date itself); while the request is pending the strict bound is a reachable
invariant; and an approving `respondToPaymentModification` on an extension
sets `due_date` to exactly the requested value, which is strictly greater
than the previous due date. -/
theorem c9_extension_strictly_increases_due_date :
    (∀ (s : LendingState) (sender now agreementId value : Nat)
       (s' : LendingState) (tr : List TokenTransfer),
      requestPaymentModification s sender now agreementId
        PaymentModificationType.DueDateExtension value = .ok (s', tr) →
      (s.loanAgreements agreementId).dueDate < value ∧
      (s'.loanAgreements agreementId).requestedModificationValue = value ∧
      (s'.loanAgreements agreementId).dueDate =
        (s.loanAgreements agreementId).dueDate ∧
      (s'.loanAgreements agreementId).status =
        LoanStatus.PendingModificationApproval) ∧
    (∀ s, Reachable s → ∀ id,
      (s.loanAgreements id).status = LoanStatus.PendingModificationApproval →
      (s.loanAgreements id).requestedModificationType =
        PaymentModificationType.DueDateExtension →
      (s.loanAgreements id).dueDate <
        (s.loanAgreements id).requestedModificationValue) ∧
    (∀ (s : LendingState) (sender now agreementId : Nat) (s' : LendingState)
       (tr : List TokenTransfer), Reachable s →
      respondToPaymentModification s sender now agreementId true = .ok (s', tr) →
      (s.loanAgreements agreementId).requestedModificationType =
        PaymentModificationType.DueDateExtension →
      (s'.loanAgreements agreementId).dueDate =
        (s.loanAgreements agreementId).requestedModificationValue ∧
      (s.loanAgreements agreementId).dueDate <
        (s'.loanAgreements agreementId).dueDate) := by
  refine ⟨?_, ?_, ?_⟩
  · intro s sender now agreementId value s' tr h
    obtain ⟨hAg, hv, hext, -⟩ := requestPaymentModification_char h
    exact ⟨hext rfl, by rw [hAg, upd_same], by rw [hAg, upd_same],
      by rw [hAg, upd_same]⟩
  · exact fun s hs id h1 h2 => (reachable_stateInv s hs id).2.1 h1 h2
  · intro s sender now agreementId s' tr hreach h hmt
    obtain ⟨hpend, A, hAg, -, -, -, -, -, hbr⟩ := respondToPaymentModification_char h
    have hinv := (reachable_stateInv s hreach agreementId).2.1 hpend hmt
    rcases hbr with ⟨-, -, hdd, -, -⟩ | ⟨-, hN, -, -, -⟩ | ⟨-, hN, -, -, -⟩ |
      ⟨hfalse, -, -, -⟩
    · rw [hAg, upd_same]
      exact ⟨hdd, by rw [hdd]; exact hinv⟩
    · rw [hmt] at hN; exact absurd hN (by simp)
    · rw [hmt] at hN; exact absurd hN (by simp)
    · exact absurd hfalse (by simp)

/-- Witness for C9 at a concrete trace: the extension request to t = 30 on a
loan due at t = 20 is approved and the due date becomes 30 > 20. -/
theorem c9_extension_strictly_increases_due_date_witness :
    (pendingExtState.loanAgreements 200).dueDate = 20 ∧
    (respondedExtState.loanAgreements 200).dueDate = 30 ∧
    (pendingExtState.loanAgreements 200).dueDate <
      (respondedExtState.loanAgreements 200).dueDate := by
  have h := c9_extension_strictly_increases_due_date.2.2 pendingExtState 1 13 200
    respondedExtState [] reachable_pendingExtState rfl (by decide)
  exact ⟨by decide, by rw [h.1]; decide, h.2⟩

/-- Claim C5: at a settling repayment (a successful `repayLoan` that leaves
the agreement `Repaid`) on a reachable state, the payment-outcome
classification computed by the code from the snapshot
`(now, due_date, modification_type_before, lender_approved_before)` equals
the first-matching rule of spec §4.4 (`specOutcomeFirstMatch`). -/
theorem c5_outcome_classifier_first_match (registry : Nat → Bool) (s : LendingState)
    (sender now agreementId payment : Nat) (s' : LendingState)
    (tr : List TokenTransfer) (hreach : Reachable s)
    (hok : repayLoan registry s sender now agreementId payment = .ok (s', tr))
    (hrepaid : (s'.loanAgreements agreementId).status = LoanStatus.Repaid) :
    codeOutcomeClassifier now (s.loanAgreements agreementId).dueDate
      (s.loanAgreements agreementId).modificationApprovedByLender
      (s.loanAgreements agreementId).requestedModificationType =
    specOutcomeFirstMatch now (s.loanAgreements agreementId).dueDate
      (s.loanAgreements agreementId).requestedModificationType
      (s.loanAgreements agreementId).modificationApprovedByLender := by
  have hrep := (repayLoan_char hok).1
  have hinv := (reachable_stateInv s hreach agreementId).2.2 hrep
  by_cases hd : now ≤ (s.loanAgreements agreementId).dueDate <;>
    cases happ : (s.loanAgreements agreementId).modificationApprovedByLender <;>
    cases hmt : (s.loanAgreements agreementId).requestedModificationType <;>
    simp_all [codeOutcomeClassifier, specOutcomeFirstMatch]

/-- Witness for C5 at a concrete trace: the settling repayment of the
never-modified loan (snapshot approved = false, type = DueDateExtension,
paid before the due date) classifies as the spec's rule 3, OnTimeOriginal. -/
theorem c5_outcome_classifier_first_match_witness :
    codeOutcomeClassifier 5000 (bigAcceptedState.loanAgreements 200).dueDate
      (bigAcceptedState.loanAgreements 200).modificationApprovedByLender
      (bigAcceptedState.loanAgreements 200).requestedModificationType =
    specOutcomeFirstMatch 5000 (bigAcceptedState.loanAgreements 200).dueDate
      (bigAcceptedState.loanAgreements 200).requestedModificationType
      (bigAcceptedState.loanAgreements 200).modificationApprovedByLender :=
  c5_outcome_classifier_first_match regAll bigAcceptedState 2 5000 200
    (110 * 10 ^ 18) neverModifiedState [⟨5, 2, 1, 110 * 10 ^ 18⟩]
    reachable_bigAcceptedState (by rfl) (by decide)

end UncleCredit
